import Mathlib

/-!
Verification of the EventChain ticketing contract
(src/backend/contracts/EventChain.sol) via a shallow embedding.

Addresses are modelled as natural numbers; distinguished addresses
(the zero address, the G$ fee-bearing token, the UBI fee pool and the
EventChain contract itself) are fixed distinct constants.  Machine
integers (uint256/uint64) are modelled as Nat: Solidity 0.8 reverts on
overflow/underflow, and the only subtraction reachable with an
underflow, `startDate - REFUND_BUFFER`, is modelled explicitly as an
arithmetic panic.  Every state-mutating entry point is a total
function returning `Except Err (EcState × List Xfer)`: an `Except.error`
models a revert (no state change, transaction rolled back), the `Xfer`
list records the fund movements the contract commands on success.
Outcomes of external calls (ERC20 transfers, the native-coin call, the
ERC677 transferAndCall) are supplied as explicit oracle arguments,
since the called code is outside the repository.
-/

set_option maxRecDepth 10000

namespace EventChain

abbrev Address := Nat

/-- The `address(0)` sentinel, called `Base` in the contract. -/
def zeroAddr : Address := 0

/-- Stands for the hardcoded G$ token address
0x62B8B11039FcfE5aB0C56E502b1C372A3d2a9c7A. -/
def gdollarToken : Address := 777

/-- Stands for the EventChain contract's own address (`address(this)`). -/
def contractAddr : Address := 999

/-- Stands for the initial `ubiPool` value
0x43d72Ff17701B2DA814620735C39C620Ce0ea4A1 (nonzero). -/
def ubiPoolAddr : Address := 431

def MAX_NAME_LENGTH : Nat := 100
def MAX_URL_LENGTH : Nat := 200
def MAX_DETAILS_LENGTH : Nat := 1000
def MAX_LOCATION_LENGTH : Nat := 150
def MAX_TICKET_PRICE : Nat := 10 ^ 24
def MAX_ATTENDEES : Nat := 5000
def MIN_EVENT_DURATION : Nat := 3600
def REFUND_BUFFER : Nat := 18000

/-- The `Event` struct of the contract. -/
structure Event where
  owner : Address
  eventName : String
  eventCardImgUrl : String
  eventDetails : String
  startDate : Nat
  endDate : Nat
  startTime : Nat
  endTime : Nat
  eventLocation : String
  isActive : Bool
  ticketPrice : Nat
  fundsHeld : Nat
  minimumAge : Nat
  isCanceled : Bool
  fundsReleased : Bool
  paymentToken : Address
deriving DecidableEq, Repr

/-- Revert reasons.  Each constructor corresponds to one `require`
message of the contract (or a Solidity 0.8 panic). -/
inductive Err where
  /-- require in `validEvent`: "Invalid event" / "Invalid event ID" -/
  | invalidEvent
  /-- require in `validEvent`: the owner field is the zero address -/
  | eventNotExist
  /-- `whenNotPaused`: "Contract paused" -/
  | contractPaused
  /-- `onlyOwner`: "Not event owner" -/
  | notEventOwner
  /-- "Event expired" -/
  | eventExpired
  /-- "Event inactive" -/
  | eventInactive
  /-- "Already purchased" -/
  | alreadyPurchased
  /-- "Event at capacity" -/
  | eventAtCapacity
  /-- "Incorrect amount" (`_processTicketPurchase`) -/
  | incorrectAmount
  /-- "Incorrect Base amount" (native rail of `buyTicket`) -/
  | incorrectBaseAmount
  /-- "Insufficient allowance" -/
  | insufficientAllowance
  /-- "Transfer failed" (`_safeTransferFrom` / `_safeTransfer` /
  SafeERC20 revert) -/
  | transferFailed
  /-- "Only G$ token" (`onTokenTransfer`) -/
  | onlyGdollarToken
  /-- "Only for G$ token" (`_processTicketPurchase`) -/
  | onlyForGdollarToken
  /-- "No ticket purchased" -/
  | noTicketPurchased
  /-- "Insufficient funds" -/
  | insufficientFunds
  /-- "Insufficient Base funds" -/
  | insufficientBaseFunds
  /-- "Refund period ended" -/
  | refundPeriodEnded
  /-- "Base refund failed" -/
  | baseRefundFailed
  /-- "Already canceled" -/
  | alreadyCanceled
  /-- "Event has not ended yet" -/
  | eventNotEnded
  /-- "Cannot release funds for canceled event" -/
  | canceledNoRelease
  /-- "Funds already released" -/
  | alreadyReleased
  /-- "Base transfer failed" (`releaseFunds`, native rail) -/
  | baseTransferFailed
  /-- createEvent: "Invalid name" -/
  | invalidName
  /-- createEvent: "Invalid URL" -/
  | invalidUrl
  /-- createEvent: "Invalid details" -/
  | invalidDetails
  /-- createEvent: "Invalid location" -/
  | invalidLocation
  /-- createEvent: "Invalid price" -/
  | invalidPrice
  /-- createEvent: "Start date must be future" -/
  | startDateNotFuture
  /-- createEvent: "Duration too short" -/
  | durationTooShort
  /-- createEvent: "Unsupported token" -/
  | unsupportedToken
  /-- OpenZeppelin ReentrancyGuard rejection -/
  | reentrancy
  /-- a revert raised inside an external contract and bubbled up -/
  | externalRevert
  /-- Solidity 0.8 panic: array index out of bounds -/
  | panicArrayOOB
  /-- Solidity 0.8 panic: checked arithmetic underflow -/
  | panicArith
deriving DecidableEq, Repr

/-- Outcome of an external call that returns a boolean: the callee can
return true, return false, or revert. -/
inductive ExtRes where
  | ok
  | returnedFalse
  | reverted
deriving DecidableEq, Repr

/-- A fund movement commanded by the contract (`token = zeroAddr`
means the native coin). -/
structure Xfer where
  token : Address
  src : Address
  dst : Address
  amount : Nat
deriving DecidableEq, Repr

/-- The contract storage.  Solidity mappings are modelled as total
functions with pointwise update; the two dynamic arrays `events` and
the per-event attendee lists are Lean lists. -/
structure EcState where
  paused : Bool
  ubiPool : Address
  supportedTokens : List Address
  events : List Event
  eventAttendees : Nat → List Address
  creatorEvents : Address → List Event
  hasPurchasedTicket : Nat → Address → Bool
  baseFundsHeld : Nat → Nat
  locked : Bool

/-- Pointwise update of an attendee-list mapping. -/
def updAttendees (f : Nat → List Address) (i : Nat) (l : List Address) :
    Nat → List Address :=
  fun j => if j = i then l else f j

/-- Pointwise update of the `hasPurchasedTicket` double mapping. -/
def updFlag (f : Nat → Address → Bool) (i : Nat) (a : Address) (b : Bool) :
    Nat → Address → Bool :=
  fun j x => if j = i ∧ x = a then b else f j x

/-- Pointwise update of the `baseFundsHeld` mapping. -/
def updNat (f : Nat → Nat) (i : Nat) (v : Nat) : Nat → Nat :=
  fun j => if j = i then v else f j

/-- Pointwise update of the `creatorEvents` mapping. -/
def updCreator (f : Address → List Event) (a : Address) (l : List Event) :
    Address → List Event :=
  fun x => if x = a then l else f x

/-- The attendee-removal loop used by the refund paths (contract
lines 429-435 and 543-548): find the first occurrence of `a`,
overwrite it with the last element of the list, pop the last element;
a list without `a` is left unchanged.  Written recursively: when the
head is the first match, the whole list's last element replaces it and
the (identical) last element of the tail is dropped; otherwise the
head is kept and the loop continues on the tail, whose last element is
still the whole list's last element. -/
def swapRemoveFirst (a : Address) : List Address → List Address
  | [] => []
  | x :: xs =>
    if x = a then
      match xs.getLast? with
      | none => []
      | some y => y :: xs.dropLast
    else
      x :: swapRemoveFirst a xs

/-- Result of one contract call: a revert reason, or the new storage
together with the fund movements performed. -/
abbrev Res := Except Err (EcState × List Xfer)

/-- The state after deployment: `constructor(address[] _supportedTokens)`
marks the zero address supported and then every nonzero element of the
argument list. -/
def initState (toks : List Address) : EcState where
  paused := false
  ubiPool := ubiPoolAddr
  supportedTokens := zeroAddr :: toks.filter (fun t => ¬ t = zeroAddr)
  events := []
  eventAttendees := fun _ => []
  creatorEvents := fun _ => []
  hasPurchasedTicket := fun _ _ => false
  baseFundsHeld := fun _ => 0
  locked := false

/-- The argument bundle of `createEvent`. -/
structure EventSpec where
  eventName : String
  eventCardImgUrl : String
  eventDetails : String
  startDate : Nat
  endDate : Nat
  startTime : Nat
  endTime : Nat
  eventLocation : String
  ticketPrice : Nat
  minimumAge : Nat
  paymentToken : Address
deriving DecidableEq, Repr

/-- `bytes(str).length` of Solidity = UTF-8 byte size. -/
def strBytes (s : String) : Nat := s.utf8ByteSize

/-- `createEvent` (contract lines 281-349).  Checks run in source
order: `whenNotPaused`, the string/price bounds, the two date
requirements (note line 319 uses `_startDate >= block.timestamp`),
the token registry; then the event is appended both to `events` and,
as a snapshot copy, to `creatorEvents[msg.sender]`. -/
def createEvent (s : EcState) (caller : Address) (now : Nat)
    (sp : EventSpec) : Res :=
  if s.paused then .error .contractPaused
  else if ¬ (0 < strBytes sp.eventName ∧ strBytes sp.eventName ≤ MAX_NAME_LENGTH) then
    .error .invalidName
  else if ¬ (0 < strBytes sp.eventCardImgUrl ∧ strBytes sp.eventCardImgUrl ≤ MAX_URL_LENGTH) then
    .error .invalidUrl
  else if ¬ (0 < strBytes sp.eventDetails ∧ strBytes sp.eventDetails ≤ MAX_DETAILS_LENGTH) then
    .error .invalidDetails
  else if ¬ (0 < strBytes sp.eventLocation ∧ strBytes sp.eventLocation ≤ MAX_LOCATION_LENGTH) then
    .error .invalidLocation
  else if ¬ (0 < sp.ticketPrice ∧ sp.ticketPrice ≤ MAX_TICKET_PRICE) then
    .error .invalidPrice
  else if ¬ (sp.startDate ≥ now) then .error .startDateNotFuture
  else if ¬ (sp.endDate ≥ sp.startDate + MIN_EVENT_DURATION) then .error .durationTooShort
  else if ¬ s.supportedTokens.contains sp.paymentToken then .error .unsupportedToken
  else
    let newEvent : Event :=
      { owner := caller
        eventName := sp.eventName
        eventCardImgUrl := sp.eventCardImgUrl
        eventDetails := sp.eventDetails
        startDate := sp.startDate
        endDate := sp.endDate
        startTime := sp.startTime
        endTime := sp.endTime
        eventLocation := sp.eventLocation
        isActive := true
        ticketPrice := sp.ticketPrice
        fundsHeld := 0
        minimumAge := sp.minimumAge
        isCanceled := false
        fundsReleased := false
        paymentToken := sp.paymentToken }
    .ok ({ s with
            events := s.events ++ [newEvent]
            creatorEvents :=
              updCreator s.creatorEvents caller (s.creatorEvents caller ++ [newEvent]) },
         [])

/-- `_processTicketPurchase` (contract lines 230-265).  Internal
purchase handler reached through `onTokenTransfer`.  `feeRes` is the
outcome of the raw `IERC20.transfer(ubiPool, fee)` at line 258, whose
boolean return value the source does NOT check: only a revert of the
token aborts the purchase; a returned `false` is silently ignored and
no fee movement happens. -/
def processTicketPurchase (s : EcState) (buyer : Address) (eventId : Nat)
    (amount : Nat) (now : Nat) (feeRes : ExtRes) : Res :=
  -- modifier validEvent(eventId)
  match s.events.get? eventId with
  | none => .error .invalidEvent
  | some e =>
    if e.owner = zeroAddr then .error .eventNotExist
    -- modifier whenNotPaused
    else if s.paused then .error .contractPaused
    else if ¬ e.paymentToken = gdollarToken then .error .onlyForGdollarToken
    else if ¬ e.startDate > now then .error .eventExpired
    else if ¬ e.isActive = true then .error .eventInactive
    else if s.hasPurchasedTicket eventId buyer then .error .alreadyPurchased
    else if ¬ (s.eventAttendees eventId).length < MAX_ATTENDEES then .error .eventAtCapacity
    else if ¬ amount = e.ticketPrice then .error .incorrectAmount
    else
      let fee := amount * 100 / 10000
      let net := amount - fee
      let doFee := 0 < fee ∧ ¬ s.ubiPool = zeroAddr
      if feeRes = .reverted ∧ doFee then .error .externalRevert
      else
        .ok ({ s with
                hasPurchasedTicket := updFlag s.hasPurchasedTicket eventId buyer true
                eventAttendees :=
                  updAttendees s.eventAttendees eventId (s.eventAttendees eventId ++ [buyer])
                events := s.events.set eventId { e with fundsHeld := e.fundsHeld + net } },
             if doFee ∧ feeRes = .ok then
               [{ token := e.paymentToken, src := contractAddr, dst := s.ubiPool, amount := fee }]
             else [])

/-- `onTokenTransfer` (contract lines 204-222): the ERC677 receive
hook.  `msgSender` is the caller of the hook (must be the G$ token);
`from_` is the payer the token reports; the G$ token has already moved
`value` tokens from `from_` to the contract before invoking the hook,
so that movement is not part of this function's transfer list. -/
def onTokenTransfer (s : EcState) (msgSender from_ : Address)
    (value eventId now : Nat) (feeRes : ExtRes) : Res :=
  if ¬ msgSender = gdollarToken then .error .onlyGdollarToken
  else processTicketPurchase s from_ eventId value now feeRes

/-- `buyTicket` (contract lines 357-417).  Oracle arguments:
`allowance` is what `IERC20.allowance(msg.sender, this)` reports,
`transferFromOk` the outcome of `transferFrom` on the standard rail,
`tacOk` whether the G$ token's `transferAndCall` itself succeeds, and
`feeRes` the outcome of the fee transfer inside the ERC677 callback.
On the G$ rail the contract calls
`transferAndCall(address(this), price, data)`: per ERC677 the token
moves `price` from the caller of `transferAndCall` — which is the
EventChain contract itself, a self-transfer — and then invokes
`onTokenTransfer` on the recipient with `from = address(this)`.  That
callback is modelled inline (it runs `_processTicketPurchase` with
`buyer = contractAddr`), after which the source credits `fundsHeld`
with the net amount a second time (line 393) and records the caller
(lines 414-415). -/
def buyTicket (s : EcState) (caller : Address) (now msgValue idx allowance : Nat)
    (transferFromOk tacOk : Bool) (feeRes : ExtRes) : Res :=
  -- modifier nonReentrant
  if s.locked then .error .reentrancy
  -- modifier validEvent(_index)
  else match s.events.get? idx with
  | none => .error .invalidEvent
  | some e =>
    if e.owner = zeroAddr then .error .eventNotExist
    -- modifier whenNotPaused
    else if s.paused then .error .contractPaused
    else if ¬ e.startDate > now then .error .eventExpired
    else if ¬ e.isActive = true then .error .eventInactive
    else if s.hasPurchasedTicket idx caller then .error .alreadyPurchased
    else if ¬ (s.eventAttendees idx).length < MAX_ATTENDEES then .error .eventAtCapacity
    else
      let price := e.ticketPrice
      if e.paymentToken = zeroAddr then
        -- native (Base) rail, lines 375-378
        if ¬ msgValue = price then .error .incorrectBaseAmount
        else
          .ok ({ s with
                  baseFundsHeld := updNat s.baseFundsHeld idx (s.baseFundsHeld idx + price)
                  hasPurchasedTicket := updFlag s.hasPurchasedTicket idx caller true
                  eventAttendees :=
                    updAttendees s.eventAttendees idx (s.eventAttendees idx ++ [caller]) },
               [{ token := zeroAddr, src := caller, dst := contractAddr, amount := price }])
      else if e.paymentToken = gdollarToken then
        -- G$ rail, lines 380-394
        if ¬ tacOk = true then .error .externalRevert
        else
          match processTicketPurchase s contractAddr idx price now feeRes with
          | .error err => .error err
          | .ok (s1, xs) =>
            match s1.events.get? idx with
            | none => .error .panicArrayOOB
            | some e1 =>
              let fee := price / 100
              let net := price - fee
              .ok ({ s1 with
                      events := s1.events.set idx { e1 with fundsHeld := e1.fundsHeld + net }
                      hasPurchasedTicket := updFlag s1.hasPurchasedTicket idx caller true
                      eventAttendees :=
                        updAttendees s1.eventAttendees idx (s1.eventAttendees idx ++ [caller]) },
                   { token := gdollarToken, src := contractAddr, dst := contractAddr,
                     amount := price } :: xs)
      else
        -- standard ERC20 rail, lines 396-412
        if ¬ allowance ≥ price then .error .insufficientAllowance
        else if ¬ transferFromOk = true then .error .transferFailed
        else
          .ok ({ s with
                  events := s.events.set idx { e with fundsHeld := e.fundsHeld + price }
                  hasPurchasedTicket := updFlag s.hasPurchasedTicket idx caller true
                  eventAttendees :=
                    updAttendees s.eventAttendees idx (s.eventAttendees idx ++ [caller]) },
               [{ token := e.paymentToken, src := caller, dst := contractAddr, amount := price }])

/-- `cancelEvent` (contract lines 451-460).  The `onlyOwner` modifier
runs before `validEvent` and indexes `events[_index]` without a bounds
check, so an out-of-range id is an array-out-of-bounds panic. -/
def cancelEvent (s : EcState) (caller : Address) (idx : Nat) : Res :=
  match s.events.get? idx with
  | none => .error .panicArrayOOB
  | some e =>
    if ¬ e.owner = caller then .error .notEventOwner
    -- validEvent's bounds check is already known to hold here
    else if e.owner = zeroAddr then .error .eventNotExist
    else if s.paused then .error .contractPaused
    else if ¬ e.isActive = true then .error .alreadyCanceled
    else
      .ok ({ s with
              events := s.events.set idx { e with isActive := false, isCanceled := true } },
           [])

/-- The result of the first phase of `requestRefund`: the storage as
it stands at the moment of the outbound transfer, plus the refund
amount and the payment token. -/
structure RefundMid where
  midState : EcState
  refundAmount : Nat
  payTok : Address

/-- Phase one of `requestRefund` (contract lines 496-533): reentrancy
guard, `validEvent`, `whenNotPaused`, the ticket check (line 499), the
G$ 99% reduction (lines 505-507), the rail-matched funds check (lines
510-520), the refund-window check (lines 522-527, where
`startDate - REFUND_BUFFER` is checked uint subtraction), and then the
state mutation performed BEFORE the outbound transfer: the flag clear
(line 530) and the escrow debit (line 533 or 537).  The reentrancy
guard is held (`locked := true`) while the transfer runs.  Attendee
removal (lines 542-549) is NOT part of this phase: in the source it
happens after the transfer. -/
def requestRefundChecks (s : EcState) (caller : Address) (now idx : Nat) :
    Except Err RefundMid :=
  if s.locked then .error .reentrancy
  else match s.events.get? idx with
  | none => .error .invalidEvent
  | some e =>
    if e.owner = zeroAddr then .error .eventNotExist
    else if s.paused then .error .contractPaused
    else if ¬ s.hasPurchasedTicket idx caller = true then .error .noTicketPurchased
    else
      let tok := e.paymentToken
      let refund := if tok = gdollarToken then e.ticketPrice * 99 / 100 else e.ticketPrice
      let afterFunds : Except Err RefundMid :=
        if ¬ e.isCanceled = true ∧ e.startDate < REFUND_BUFFER then .error .panicArith
        else if ¬ e.isCanceled = true ∧ ¬ now < e.startDate - REFUND_BUFFER then
          .error .refundPeriodEnded
        else if tok = zeroAddr then
          .ok { midState :=
                  { s with
                      locked := true
                      hasPurchasedTicket := updFlag s.hasPurchasedTicket idx caller false
                      baseFundsHeld := updNat s.baseFundsHeld idx (s.baseFundsHeld idx - refund) }
                refundAmount := refund
                payTok := tok }
        else
          .ok { midState :=
                  { s with
                      locked := true
                      hasPurchasedTicket := updFlag s.hasPurchasedTicket idx caller false
                      events := s.events.set idx { e with fundsHeld := e.fundsHeld - refund } }
                refundAmount := refund
                payTok := tok }
      if tok = zeroAddr then
        if ¬ s.baseFundsHeld idx ≥ refund then .error .insufficientBaseFunds else afterFunds
      else
        if ¬ e.fundsHeld ≥ refund then .error .insufficientFunds else afterFunds

/-- `requestRefund` (contract lines 496-552): phase one, then the
outbound transfer (native `call` at line 534 or `safeTransfer` at line
538, outcome `tOk`), then the swap-and-pop attendee removal (lines
542-549) and the guard release. -/
def requestRefund (s : EcState) (caller : Address) (now idx : Nat) (tOk : Bool) : Res :=
  match requestRefundChecks s caller now idx with
  | .error e => .error e
  | .ok m =>
    if ¬ tOk = true then
      .error (if m.payTok = zeroAddr then .baseRefundFailed else .transferFailed)
    else
      .ok ({ m.midState with
              eventAttendees :=
                updAttendees m.midState.eventAttendees idx
                  (swapRemoveFirst caller (m.midState.eventAttendees idx))
              locked := false },
           [{ token := m.payTok, src := contractAddr, dst := caller, amount := m.refundAmount }])

/-- `requestRefund1` together with its helper `_processRefund`
(contract lines 423-444 and 468-494), the legacy refund path: same
guard, validity, ticket, G$ 99% reduction; the funds check always
reads `fundsHeld` (line 484, no native bucket); same refund-window
check; then `_processRefund` clears the flag, debits `fundsHeld`,
removes the caller by swap-and-pop and only then transfers via
`_safeTransfer`. -/
def requestRefund1 (s : EcState) (caller : Address) (now idx : Nat) (tOk : Bool) : Res :=
  if s.locked then .error .reentrancy
  else match s.events.get? idx with
  | none => .error .invalidEvent
  | some e =>
    if e.owner = zeroAddr then .error .eventNotExist
    else if s.paused then .error .contractPaused
    else if ¬ s.hasPurchasedTicket idx caller = true then .error .noTicketPurchased
    else
      let refund := if e.paymentToken = gdollarToken then e.ticketPrice * 99 / 100
                    else e.ticketPrice
      if ¬ e.fundsHeld ≥ refund then .error .insufficientFunds
      else if ¬ e.isCanceled = true ∧ e.startDate < REFUND_BUFFER then .error .panicArith
      else if ¬ e.isCanceled = true ∧ ¬ now < e.startDate - REFUND_BUFFER then
        .error .refundPeriodEnded
      else if ¬ tOk = true then .error .transferFailed
      else
        .ok ({ s with
                locked := false
                hasPurchasedTicket := updFlag s.hasPurchasedTicket idx caller false
                events := s.events.set idx { e with fundsHeld := e.fundsHeld - refund }
                eventAttendees :=
                  updAttendees s.eventAttendees idx
                    (swapRemoveFirst caller (s.eventAttendees idx)) },
             [{ token := e.paymentToken, src := contractAddr, dst := caller, amount := refund }])

/-- `releaseFunds` (contract lines 587-617).  `onlyOwner` runs before
the explicit bounds check, so an out-of-range id is an
array-out-of-bounds panic; then `nonReentrant`, the end-date, cancel
and released checks, and the rail-matched payout that zeroes the
bucket and latches `fundsReleased`. -/
def releaseFunds (s : EcState) (caller : Address) (now idx : Nat) (tOk : Bool) : Res :=
  match s.events.get? idx with
  | none => .error .panicArrayOOB
  | some e =>
    if ¬ e.owner = caller then .error .notEventOwner
    else if s.locked then .error .reentrancy
    else if ¬ now > e.endDate then .error .eventNotEnded
    else if e.isCanceled then .error .canceledNoRelease
    else if e.fundsReleased then .error .alreadyReleased
    else if e.paymentToken = zeroAddr then
      let amt := s.baseFundsHeld idx
      if ¬ tOk = true then .error .baseTransferFailed
      else
        .ok ({ s with
                baseFundsHeld := updNat s.baseFundsHeld idx 0
                events := s.events.set idx { e with fundsReleased := true }
                locked := false },
             [{ token := zeroAddr, src := contractAddr, dst := caller, amount := amt }])
    else
      let amt := e.fundsHeld
      if ¬ tOk = true then .error .transferFailed
      else
        .ok ({ s with
                events := s.events.set idx { e with fundsHeld := 0, fundsReleased := true }
                locked := false },
             [{ token := e.paymentToken, src := contractAddr, dst := caller, amount := amt }])

/-- One invocation of a state-mutating entry point, with the caller,
the block timestamp and the outcomes of the external calls it makes. -/
inductive Op where
  | opCreate (caller now : Nat) (sp : EventSpec)
  | opBuy (caller now msgValue idx allowance : Nat)
      (transferFromOk tacOk : Bool) (feeRes : ExtRes)
  | opTokenCb (msgSender from_ : Address) (value idx now : Nat) (feeRes : ExtRes)
  | opCancel (caller idx : Nat)
  | opRefund (caller now idx : Nat) (tOk : Bool)
  | opRelease (caller now idx : Nat) (tOk : Bool)

/-- Run one operation. -/
def runOp (s : EcState) : Op → Res
  | .opCreate caller now sp => createEvent s caller now sp
  | .opBuy caller now msgValue idx allowance tfOk tacOk feeRes =>
      buyTicket s caller now msgValue idx allowance tfOk tacOk feeRes
  | .opTokenCb msgSender from_ value idx now feeRes =>
      onTokenTransfer s msgSender from_ value idx now feeRes
  | .opCancel caller idx => cancelEvent s caller idx
  | .opRefund caller now idx tOk => requestRefund s caller now idx tOk
  | .opRelease caller now idx tOk => releaseFunds s caller now idx tOk

/-- The state after one operation: a revert leaves the storage
unchanged. -/
def step (s : EcState) (o : Op) : EcState :=
  match runOp s o with
  | .ok (s', _) => s'
  | .error _ => s

/-- Environment faithfulness: the EventChain contract's own address
can be `msg.sender` of `buyTicket` only if the contract called its own
external function, which its code never does — so external `buyTicket`
callers are distinct from the contract address. -/
def opSenderOk : Op → Prop
  | .opBuy caller _ _ _ _ _ _ _ => ¬ caller = contractAddr
  | _ => True

/-- States reachable from deployment (any initial token list) by any
sequence of entry-point invocations. -/
inductive Reachable (toks : List Address) : EcState → Prop where
  | init : Reachable toks (initState toks)
  | next {s : EcState} (o : Op) (h : opSenderOk o) (hs : Reachable toks s) :
      Reachable toks (step s o)

/-! ### Projection helpers and a concrete scenario -/

/-- `fundsHeld` of event `i` (0 when out of range). -/
def fundsAt (s : EcState) (i : Nat) : Nat :=
  ((s.events.get? i).map Event.fundsHeld).getD 0

/-- The state carried by a successful result (fallback: empty state). -/
def stateOf (r : Res) : EcState :=
  match r with
  | .ok (s, _) => s
  | .error _ => initState []

/-- The transfer list of a successful result. -/
def xfersOf (r : Res) : List Xfer :=
  match r with
  | .ok (_, xs) => xs
  | .error _ => []

/-- Whether a result is a success. -/
def resOk (r : Res) : Bool :=
  match r with
  | .ok _ => true
  | .error _ => false

/-- Total amount a transfer list sends to address `a`. -/
def totalTo (xs : List Xfer) (a : Address) : Nat :=
  (xs.map (fun x => if x.dst = a then x.amount else 0)).sum

/-- A second, standard (non-fee-bearing) supported ERC20 token. -/
def stdToken : Address := 555

/-- The deployment token list used by the concrete scenarios. -/
def demoToks : List Address := [gdollarToken, stdToken]

/-- A well-formed `createEvent` argument bundle: G$-denominated event,
price 1,000,000 token units, start 100000, end 103600. -/
def demoSpec : EventSpec where
  eventName := "Concert"
  eventCardImgUrl := "img"
  eventDetails := "details"
  startDate := 100000
  endDate := 103600
  startTime := 9
  endTime := 18
  eventLocation := "Lagos"
  ticketPrice := 1000000
  minimumAge := 0
  paymentToken := gdollarToken

/-- The same event on the standard ERC20 rail. -/
def demoSpecStd : EventSpec :=
  { demoSpec with paymentToken := stdToken }

/-- The same event on the native (Base) rail. -/
def demoSpecBase : EventSpec :=
  { demoSpec with paymentToken := zeroAddr }

/-- State after the creator (address 5) creates the G$ event (id 0),
the standard-token event (id 1) and the native event (id 2) at
time 1. -/
def sCreated : EcState :=
  step (step (step (initState demoToks)
    (.opCreate 5 1 demoSpec))
    (.opCreate 5 1 demoSpecStd))
    (.opCreate 5 1 demoSpecBase)

/-- Buyer 6 purchasing a ticket for the G$ event via `buyTicket` at
time 10, with every external call succeeding. -/
def buyGdRes : Res := buyTicket sCreated 6 10 0 0 0 true true .ok

/-- Storage after that purchase. -/
def sBought : EcState := stateOf buyGdRes

/-- Buyer 6 purchasing via the direct ERC677 route: the G$ token moves
1,000,000 units from the buyer to the contract and invokes
`onTokenTransfer(buyer, 1000000, eventId 0)`. -/
def directGdRes : Res := onTokenTransfer sCreated gdollarToken 6 1000000 0 10 .ok

/-- The refund amount `requestRefund` computes for an event: 99% of
the ticket price on the fee-bearing (G$) rail, the full price
otherwise. -/
def refundOf (e : Event) : Nat :=
  if e.paymentToken = gdollarToken then e.ticketPrice * 99 / 100 else e.ticketPrice

/-- The G$ demo event as stored after the purchase. -/
def eBoughtG : Event := (sBought.events.get? 0).getD
  { owner := 0, eventName := "", eventCardImgUrl := "", eventDetails := "",
    startDate := 0, endDate := 0, startTime := 0, endTime := 0, eventLocation := "",
    isActive := false, ticketPrice := 0, fundsHeld := 0, minimumAge := 0,
    isCanceled := false, fundsReleased := false, paymentToken := 0 }

/-- The transfer-moment storage of the concrete refund of the G$ demo
purchase (caller 6, event 0, time 50000). -/
def mDemo : RefundMid :=
  (requestRefundChecks sBought 6 50000 0).toOption.getD
    { midState := initState [], refundAmount := 0, payTok := 0 }

/-- The standard-token demo event state: buyer 6 bought event 1
(standard ERC20 rail) with sufficient allowance. -/
def sStdBought : EcState := stateOf (buyTicket sCreated 6 10 0 1 1000000 true true .ok)

/-- The standard-token demo event as stored after that purchase. -/
def eStdBought : Event := (sStdBought.events.get? 1).getD
  { owner := 0, eventName := "", eventCardImgUrl := "", eventDetails := "",
    startDate := 0, endDate := 0, startTime := 0, endTime := 0, eventLocation := "",
    isActive := false, ticketPrice := 0, fundsHeld := 0, minimumAge := 0,
    isCanceled := false, fundsReleased := false, paymentToken := 0 }

/-- The concrete refund of the G$ demo purchase. -/
def refundGdRes : Res := requestRefund sBought 6 50000 0 true

/-- Storage after that refund. -/
def sRefunded : EcState := stateOf refundGdRes

/-- The transfers of the concrete G$ purchase. -/
def xsBoughtG : List Xfer := xfersOf buyGdRes

/-- The transfers of the concrete refund. -/
def xsRefunded : List Xfer := xfersOf refundGdRes

/-- The G$ demo event as stored right after creation. -/
def eCreatedG : Event := (sCreated.events.get? 0).getD
  { owner := 0, eventName := "", eventCardImgUrl := "", eventDetails := "",
    startDate := 0, endDate := 0, startTime := 0, endTime := 0, eventLocation := "",
    isActive := false, ticketPrice := 0, fundsHeld := 0, minimumAge := 0,
    isCanceled := false, fundsReleased := false, paymentToken := 0 }

/-- The attendance invariant: every attendee list is duplicate-free,
and an identity is listed iff its purchase flag is set. -/
def AttendInv (s : EcState) : Prop :=
  ∀ ev : Nat, (s.eventAttendees ev).Nodup ∧
    ∀ a : Address, a ∈ s.eventAttendees ev ↔ s.hasPurchasedTicket ev a = true

/-! ### Helper lemmas shared by the claim proofs -/

theorem swapRemoveFirst_of_not_mem (a : Address) (l : List Address) (h : a ∉ l) :
    swapRemoveFirst a l = l := by
  induction l with
  | nil => rfl
  | cons x xs ih =>
    rw [swapRemoveFirst, if_neg (by rintro rfl; exact h (List.mem_cons_self _ _)),
      ih (fun hm => h (List.mem_cons_of_mem _ hm))]

theorem mem_swapRemoveFirst (a b : Address) (l : List Address) (hnd : l.Nodup) :
    b ∈ swapRemoveFirst a l ↔ b ∈ l ∧ b ≠ a := by
  induction l with
  | nil => simp [swapRemoveFirst]
  | cons x xs ih =>
    rcases List.nodup_cons.mp hnd with ⟨hx, hxs⟩
    by_cases hxa : x = a
    · subst hxa
      rw [swapRemoveFirst, if_pos rfl]
      cases hlast : xs.getLast? with
      | none =>
        have hnil : xs = [] := List.getLast?_eq_none_iff.mp hlast
        subst hnil
        simp
      | some y =>
        have hdecomp : xs.dropLast ++ [y] = xs :=
          List.dropLast_append_getLast? y (by simp [Option.mem_def, hlast])
        constructor
        · intro hb
          rcases List.mem_cons.mp hb with rfl | hb
          · have hy : b ∈ xs := by
              rw [← hdecomp]
              exact List.mem_append_right _ (List.mem_singleton_self _)
            exact ⟨List.mem_cons_of_mem _ hy, fun hba => hx (hba ▸ hy)⟩
          · have hb' : b ∈ xs := List.mem_of_mem_dropLast hb
            exact ⟨List.mem_cons_of_mem _ hb', fun hba => hx (hba ▸ hb')⟩
        · rintro ⟨hb, hba⟩
          rcases List.mem_cons.mp hb with rfl | hb
          · exact absurd rfl hba
          · rw [← hdecomp] at hb
            rcases List.mem_append.mp hb with hb | hb
            · exact List.mem_cons_of_mem _ hb
            · exact List.mem_cons.mpr (.inl (List.mem_singleton.mp hb))
    · rw [swapRemoveFirst, if_neg hxa]
      simp only [List.mem_cons]
      rw [ih hxs]
      constructor
      · rintro (rfl | ⟨hb, hba⟩)
        · exact ⟨.inl rfl, fun hba => hxa hba⟩
        · exact ⟨.inr hb, hba⟩
      · rintro ⟨rfl | hb, hba⟩
        · exact .inl rfl
        · exact .inr ⟨hb, hba⟩

theorem nodup_swapRemoveFirst (a : Address) (l : List Address) (hnd : l.Nodup) :
    (swapRemoveFirst a l).Nodup := by
  induction l with
  | nil => exact List.nodup_nil
  | cons x xs ih =>
    rcases List.nodup_cons.mp hnd with ⟨hx, hxs⟩
    by_cases hxa : x = a
    · rw [swapRemoveFirst, if_pos hxa]
      cases hlast : xs.getLast? with
      | none => exact List.nodup_nil
      | some y =>
        have hdecomp : xs.dropLast ++ [y] = xs :=
          List.dropLast_append_getLast? y (by simp [Option.mem_def, hlast])
        have hnd2 : (xs.dropLast ++ [y]).Nodup := by rw [hdecomp]; exact hxs
        rcases List.nodup_append.mp hnd2 with ⟨hnd3, _, hdisj⟩
        exact List.nodup_cons.mpr ⟨fun hy => hdisj hy (List.mem_singleton_self _), hnd3⟩
    · rw [swapRemoveFirst, if_neg hxa]
      refine List.nodup_cons.mpr ⟨fun hmem => ?_, ih hxs⟩
      exact hx ((mem_swapRemoveFirst a x xs hxs).mp hmem).1

theorem updAttendees_self (f : Nat → List Address) (i : Nat) (l : List Address) :
    updAttendees f i l i = l := by simp [updAttendees]

theorem updAttendees_updAttendees (f : Nat → List Address) (i : Nat)
    (l1 l2 : List Address) :
    updAttendees (updAttendees f i l1) i l2 = updAttendees f i l2 := by
  funext j
  by_cases hj : j = i <;> simp [updAttendees, hj]

theorem requestRefundChecks_ok_spec (s : EcState) (caller : Address) (now idx : Nat)
    (m : RefundMid) (hm : requestRefundChecks s caller now idx = .ok m) :
    ∃ e, s.events[idx]? = some e ∧
      m.payTok = e.paymentToken ∧
      m.refundAmount = refundOf e ∧
      m.midState.hasPurchasedTicket = updFlag s.hasPurchasedTicket idx caller false ∧
      m.midState.eventAttendees = s.eventAttendees ∧
      m.midState.locked = true ∧
      (e.paymentToken = zeroAddr →
        m.midState.events = s.events ∧
        m.midState.baseFundsHeld =
          updNat s.baseFundsHeld idx (s.baseFundsHeld idx - refundOf e) ∧
        refundOf e ≤ s.baseFundsHeld idx) ∧
      (¬ e.paymentToken = zeroAddr →
        m.midState.baseFundsHeld = s.baseFundsHeld ∧
        m.midState.events = s.events.set idx { e with fundsHeld := e.fundsHeld - refundOf e } ∧
        refundOf e ≤ e.fundsHeld) := by
  by_cases h1 : s.locked
  · simp [requestRefundChecks, h1] at hm
  rcases hev : s.events[idx]? with _ | e
  · simp [requestRefundChecks, h1, hev, List.get?_eq_getElem?] at hm
  refine ⟨e, rfl, ?_⟩
  by_cases h2 : e.owner = zeroAddr
  · simp [requestRefundChecks, h1, hev, h2, List.get?_eq_getElem?] at hm
  have h2z : ¬ e.owner = 0 := by simpa [zeroAddr] using h2
  by_cases h3 : s.paused
  · simp [requestRefundChecks, h1, hev, h2, h2z, h3, List.get?_eq_getElem?] at hm
  by_cases h4 : s.hasPurchasedTicket idx caller = true
  swap
  · simp [requestRefundChecks, h1, hev, h2, h2z, h3, h4, List.get?_eq_getElem?] at hm
  by_cases htok : e.paymentToken = zeroAddr
  · by_cases h8 : e.ticketPrice ≤ s.baseFundsHeld idx
    swap
    · have h8n : s.baseFundsHeld idx < e.ticketPrice := by omega
      simp [requestRefundChecks, h1, hev, h2, h2z, h3, h4, htok, h8n, zeroAddr,
        gdollarToken, List.get?_eq_getElem?] at hm
    have h8n : ¬ s.baseFundsHeld idx < e.ticketPrice := Nat.not_lt.mpr h8
    have hrof : refundOf e = e.ticketPrice := by
      simp [refundOf, htok, zeroAddr, gdollarToken]
    by_cases hc : e.isCanceled = true
    · simp [requestRefundChecks, h1, hev, h2, h2z, h3, h4, htok, h8n, hc, zeroAddr,
        gdollarToken, List.get?_eq_getElem?] at hm
      subst hm
      exact ⟨htok.symm, by simp [hrof], rfl, rfl, rfl,
        fun _ => ⟨rfl, by rw [hrof], by rw [hrof]; exact h8⟩,
        fun hco => absurd htok hco⟩
    · have hc' : e.isCanceled = false := by simpa using hc
      by_cases harith : e.startDate < REFUND_BUFFER
      · simp [requestRefundChecks, h1, hev, h2, h2z, h3, h4, htok, h8n, hc', harith,
          zeroAddr, gdollarToken, List.get?_eq_getElem?] at hm
      by_cases hwin : now < e.startDate - REFUND_BUFFER
      · have hCw : ¬ e.startDate ≤ now + REFUND_BUFFER := by omega
        simp [requestRefundChecks, h1, hev, h2, h2z, h3, h4, htok, h8n, hc', harith, hwin,
          hCw, zeroAddr, gdollarToken, List.get?_eq_getElem?] at hm
        subst hm
        exact ⟨htok.symm, by simp [hrof], rfl, rfl, rfl,
          fun _ => ⟨rfl, by rw [hrof], by rw [hrof]; exact h8⟩,
          fun hco => absurd htok hco⟩
      · have hD : e.startDate ≤ now + REFUND_BUFFER := by omega
        simp [requestRefundChecks, h1, hev, h2, h2z, h3, h4, htok, h8n, hc', harith, hD,
          zeroAddr, gdollarToken, List.get?_eq_getElem?] at hm
  · have hrof : refundOf e = (if e.paymentToken = gdollarToken then
        e.ticketPrice * 99 / 100 else e.ticketPrice) := rfl
    by_cases h8 : (if e.paymentToken = gdollarToken then e.ticketPrice * 99 / 100
        else e.ticketPrice) ≤ e.fundsHeld
    swap
    · have h8n : e.fundsHeld < (if e.paymentToken = gdollarToken then
          e.ticketPrice * 99 / 100 else e.ticketPrice) := Nat.lt_of_not_le h8
      simp [requestRefundChecks, h1, hev, h2, h2z, h3, h4, htok, h8n,
        List.get?_eq_getElem?] at hm
    have h8n : ¬ e.fundsHeld < (if e.paymentToken = gdollarToken then
        e.ticketPrice * 99 / 100 else e.ticketPrice) := Nat.not_lt.mpr h8
    by_cases hc : e.isCanceled = true
    · simp [requestRefundChecks, h1, hev, h2, h2z, h3, h4, htok, h8n, hc,
        List.get?_eq_getElem?] at hm
      subst hm
      exact ⟨rfl, hrof, rfl, rfl, rfl, fun hco => absurd hco htok,
        fun _ => ⟨rfl, by simp [refundOf, hc], by rw [hrof]; exact h8⟩⟩
    · have hc' : e.isCanceled = false := by simpa using hc
      by_cases harith : e.startDate < REFUND_BUFFER
      · simp [requestRefundChecks, h1, hev, h2, h2z, h3, h4, htok, h8n, hc', harith,
          List.get?_eq_getElem?] at hm
      by_cases hwin : now < e.startDate - REFUND_BUFFER
      · have hCw : ¬ e.startDate ≤ now + REFUND_BUFFER := by omega
        simp [requestRefundChecks, h1, hev, h2, h2z, h3, h4, htok, h8n, hc', harith, hwin,
          hCw, List.get?_eq_getElem?] at hm
        subst hm
        exact ⟨rfl, hrof, rfl, rfl, rfl, fun hco => absurd hco htok,
          fun _ => ⟨rfl, by simp [refundOf, hc'], by rw [hrof]; exact h8⟩⟩
      · have hD : e.startDate ≤ now + REFUND_BUFFER := by omega
        simp [requestRefundChecks, h1, hev, h2, h2z, h3, h4, htok, h8n, hc', harith, hD,
          List.get?_eq_getElem?] at hm

theorem requestRefund_ok_spec (s : EcState) (caller : Address) (now idx : Nat) (tOk : Bool)
    (s2 : EcState) (xs2 : List Xfer)
    (h : requestRefund s caller now idx tOk = .ok (s2, xs2)) :
    ∃ m, requestRefundChecks s caller now idx = .ok m ∧
      s2 = { m.midState with
              eventAttendees := updAttendees m.midState.eventAttendees idx
                (swapRemoveFirst caller (m.midState.eventAttendees idx))
              locked := false } ∧
      xs2 = [{ token := m.payTok, src := contractAddr, dst := caller,
               amount := m.refundAmount }] := by
  unfold requestRefund at h
  rcases hm : requestRefundChecks s caller now idx with err | m
  · rw [hm] at h
    exact Except.noConfusion h
  · rw [hm] at h
    dsimp only at h
    by_cases ht : tOk = true
    · rw [if_neg (not_not_intro ht)] at h
      injection h with h
      injection h with h1 h2
      exact ⟨m, rfl, h1.symm, h2.symm⟩
    · rw [if_pos ht] at h
      exact Except.noConfusion h

theorem createEvent_ok_maps (s : EcState) (caller : Address) (now : Nat) (sp : EventSpec)
    (s' : EcState) (xs : List Xfer)
    (h : createEvent s caller now sp = .ok (s', xs)) :
    s'.eventAttendees = s.eventAttendees ∧ s'.hasPurchasedTicket = s.hasPurchasedTicket := by
  simp only [createEvent] at h
  repeat' split at h
  all_goals try exact Except.noConfusion h
  injection h with h
  injection h with h1 h2
  subst h1
  exact ⟨rfl, rfl⟩

theorem cancelEvent_ok_maps (s : EcState) (caller : Address) (idx : Nat)
    (s' : EcState) (xs : List Xfer)
    (h : cancelEvent s caller idx = .ok (s', xs)) :
    s'.eventAttendees = s.eventAttendees ∧ s'.hasPurchasedTicket = s.hasPurchasedTicket := by
  simp only [cancelEvent] at h
  repeat' split at h
  all_goals try exact Except.noConfusion h
  injection h with h
  injection h with h1 h2
  subst h1
  exact ⟨rfl, rfl⟩

theorem releaseFunds_ok_maps (s : EcState) (caller : Address) (now idx : Nat) (tOk : Bool)
    (s' : EcState) (xs : List Xfer)
    (h : releaseFunds s caller now idx tOk = .ok (s', xs)) :
    s'.eventAttendees = s.eventAttendees ∧ s'.hasPurchasedTicket = s.hasPurchasedTicket := by
  simp only [releaseFunds] at h
  repeat' split at h
  all_goals try exact Except.noConfusion h
  all_goals
    injection h with h
    injection h with h1 h2
    subst h1
    exact ⟨rfl, rfl⟩

theorem processTicketPurchase_ok_spec (s : EcState) (buyer : Address)
    (eventId amount now : Nat) (feeRes : ExtRes) (s' : EcState) (xs : List Xfer)
    (h : processTicketPurchase s buyer eventId amount now feeRes = .ok (s', xs)) :
    s.hasPurchasedTicket eventId buyer = false ∧
    s'.eventAttendees = updAttendees s.eventAttendees eventId
      (s.eventAttendees eventId ++ [buyer]) ∧
    s'.hasPurchasedTicket = updFlag s.hasPurchasedTicket eventId buyer true ∧
    s'.locked = s.locked ∧ s'.paused = s.paused ∧
    s'.baseFundsHeld = s.baseFundsHeld ∧
    ∃ e, s.events[eventId]? = some e ∧ amount = e.ticketPrice ∧
      e.paymentToken = gdollarToken ∧ e.isActive = true ∧ now < e.startDate ∧
      ¬ e.owner = zeroAddr ∧
      s'.events = s.events.set eventId
        { e with fundsHeld := e.fundsHeld + (amount - amount * 100 / 10000) } := by
  rcases hev : s.events[eventId]? with _ | e
  · simp [processTicketPurchase, List.get?_eq_getElem?, hev] at h
  by_cases h2 : e.owner = zeroAddr
  · simp [processTicketPurchase, List.get?_eq_getElem?, hev, h2] at h
  by_cases h3 : s.paused
  · simp [processTicketPurchase, List.get?_eq_getElem?, hev, h2, h3] at h
  by_cases hg : e.paymentToken = gdollarToken
  swap
  · simp [processTicketPurchase, List.get?_eq_getElem?, hev, h2, h3, hg] at h
  by_cases hsd : now < e.startDate
  swap
  · simp [processTicketPurchase, List.get?_eq_getElem?, hev, h2, h3, hg, hsd] at h
  by_cases hact : e.isActive = true
  swap
  · simp [processTicketPurchase, List.get?_eq_getElem?, hev, h2, h3, hg, hsd, hact] at h
  by_cases hfl : s.hasPurchasedTicket eventId buyer = true
  · simp [processTicketPurchase, List.get?_eq_getElem?, hev, h2, h3, hg, hsd, hact,
      hfl] at h
  by_cases hcap : (s.eventAttendees eventId).length < MAX_ATTENDEES
  swap
  · simp [processTicketPurchase, List.get?_eq_getElem?, hev, h2, h3, hg, hsd, hact, hfl,
      hcap] at h
  by_cases hamt : amount = e.ticketPrice
  swap
  · simp [processTicketPurchase, List.get?_eq_getElem?, hev, h2, h3, hg, hsd, hact, hfl,
      hcap, hamt] at h
  rcases feeRes with _ | _ | _
  · by_cases hdo : 0 < e.ticketPrice * 100 / 10000 ∧ ¬ s.ubiPool = zeroAddr
    · simp [processTicketPurchase, List.get?_eq_getElem?, hev, h2, h3, hg, hsd, hact,
        hfl, hcap, hamt, hdo] at h
      obtain ⟨hh1, hh2⟩ := h
      subst hh1
      exact ⟨by simpa using hfl, rfl, rfl, rfl,
        (by simpa using h3 : s.paused = false).symm, rfl,
        e, rfl, hamt, hg, hact, hsd, h2, by simp [hamt, hact, hg]⟩
    · simp [processTicketPurchase, List.get?_eq_getElem?, hev, h2, h3, hg, hsd, hact,
        hfl, hcap, hamt, hdo] at h
      obtain ⟨hh1, hh2⟩ := h
      subst hh1
      exact ⟨by simpa using hfl, rfl, rfl, rfl,
        (by simpa using h3 : s.paused = false).symm, rfl,
        e, rfl, hamt, hg, hact, hsd, h2, by simp [hamt, hact, hg]⟩
  · simp [processTicketPurchase, List.get?_eq_getElem?, hev, h2, h3, hg, hsd, hact,
      hfl, hcap, hamt] at h
    obtain ⟨hh1, hh2⟩ := h
    subst hh1
    exact ⟨by simpa using hfl, rfl, rfl, rfl,
      (by simpa using h3 : s.paused = false).symm, rfl,
      e, rfl, hamt, hg, hact, hsd, h2, by simp [hamt, hact, hg]⟩
  · by_cases hdo : 0 < e.ticketPrice * 100 / 10000 ∧ ¬ s.ubiPool = zeroAddr
    · simp [processTicketPurchase, List.get?_eq_getElem?, hev, h2, h3, hg, hsd, hact,
        hfl, hcap, hamt, hdo] at h
    · simp [processTicketPurchase, List.get?_eq_getElem?, hev, h2, h3, hg, hsd, hact,
        hfl, hcap, hamt, hdo] at h
      obtain ⟨hh1, hh2⟩ := h
      subst hh1
      exact ⟨by simpa using hfl, rfl, rfl, rfl,
        (by simpa using h3 : s.paused = false).symm, rfl,
        e, rfl, hamt, hg, hact, hsd, h2, by simp [hamt, hact, hg]⟩
theorem buyTicket_ok_spec (s : EcState) (caller : Address)
    (now msgValue idx allowance : Nat) (tfOk tacOk : Bool) (feeRes : ExtRes)
    (s1 : EcState) (xs1 : List Xfer)
    (hb : buyTicket s caller now msgValue idx allowance tfOk tacOk feeRes = .ok (s1, xs1)) :
    s.locked = false ∧ s.paused = false ∧ s1.locked = false ∧ s1.paused = false ∧
    ∃ e, s.events[idx]? = some e ∧
      s.hasPurchasedTicket idx caller = false ∧
      now < e.startDate ∧ e.isActive = true ∧
      s1.baseFundsHeld = (if e.paymentToken = zeroAddr
        then updNat s.baseFundsHeld idx (s.baseFundsHeld idx + e.ticketPrice)
        else s.baseFundsHeld) ∧
      s1.events[idx]? = some (
        if e.paymentToken = zeroAddr then e
        else if e.paymentToken = gdollarToken then
          { e with fundsHeld := e.fundsHeld + (e.ticketPrice - e.ticketPrice * 100 / 10000)
              + (e.ticketPrice - e.ticketPrice / 100) }
        else { e with fundsHeld := e.fundsHeld + e.ticketPrice }) ∧
      (¬ e.paymentToken = gdollarToken →
        s1.eventAttendees = updAttendees s.eventAttendees idx
          (s.eventAttendees idx ++ [caller]) ∧
        s1.hasPurchasedTicket = updFlag s.hasPurchasedTicket idx caller true) ∧
      (e.paymentToken = gdollarToken →
        s.hasPurchasedTicket idx contractAddr = false ∧
        s1.eventAttendees = updAttendees s.eventAttendees idx
          (s.eventAttendees idx ++ [contractAddr] ++ [caller]) ∧
        s1.hasPurchasedTicket =
          updFlag (updFlag s.hasPurchasedTicket idx contractAddr true) idx caller true) := by
  by_cases h1 : s.locked
  · simp [buyTicket, h1] at hb
  rcases hev : s.events[idx]? with _ | e
  · simp [buyTicket, List.get?_eq_getElem?, h1, hev] at hb
  have hlen : idx < s.events.length := by
    rcases List.getElem?_eq_some.mp hev with ⟨h, _⟩
    exact h
  by_cases h2 : e.owner = zeroAddr
  · simp [buyTicket, List.get?_eq_getElem?, h1, hev, h2] at hb
  by_cases h3 : s.paused
  · simp [buyTicket, List.get?_eq_getElem?, h1, hev, h2, h3] at hb
  by_cases hsd : now < e.startDate
  swap
  · simp [buyTicket, List.get?_eq_getElem?, h1, hev, h2, h3, hsd] at hb
  by_cases hact : e.isActive = true
  swap
  · simp [buyTicket, List.get?_eq_getElem?, h1, hev, h2, h3, hsd, hact] at hb
  by_cases hfl : s.hasPurchasedTicket idx caller = true
  · simp [buyTicket, List.get?_eq_getElem?, h1, hev, h2, h3, hsd, hact, hfl] at hb
  by_cases hcap : (s.eventAttendees idx).length < MAX_ATTENDEES
  swap
  · simp [buyTicket, List.get?_eq_getElem?, h1, hev, h2, h3, hsd, hact, hfl, hcap] at hb
  have hlf : s.locked = false := by simpa using h1
  have hpf : s.paused = false := by simpa using h3
  have hff : s.hasPurchasedTicket idx caller = false := by simpa using hfl
  by_cases htok0 : e.paymentToken = zeroAddr
  · by_cases hmv : msgValue = e.ticketPrice
    swap
    · simp [buyTicket, List.get?_eq_getElem?, h1, hev, h2, h3, hsd, hact, hfl, hcap,
        htok0, hmv] at hb
    · simp [buyTicket, List.get?_eq_getElem?, h1, hev, h2, h3, hsd, hact, hfl, hcap,
        htok0, hmv] at hb
      obtain ⟨hh1, hh2⟩ := hb
      subst hh1
      refine ⟨hlf, hpf, rfl, rfl, e, rfl, hff, hsd, hact, ?_, ?_, ?_, ?_⟩
      · simp [htok0]
      · simp [htok0, List.getElem?_set_eq_of_lt _ hlen, hev]
      · intro _
        exact ⟨rfl, rfl⟩
      · intro hg
        rw [htok0] at hg
        simp [zeroAddr, gdollarToken] at hg
  · by_cases htokG : e.paymentToken = gdollarToken
    · simp only [buyTicket, List.get?_eq_getElem?] at hb
      rw [if_neg (by simp [hlf])] at hb
      rw [hev] at hb
      dsimp only at hb
      rw [if_neg h2] at hb
      rw [if_neg (by simp [hpf])] at hb
      rw [if_neg (not_not_intro hsd)] at hb
      rw [if_neg (not_not_intro hact)] at hb
      rw [if_neg hfl] at hb
      rw [if_neg (not_not_intro hcap)] at hb
      rw [if_neg htok0, if_pos htokG] at hb
      by_cases htac : tacOk = true
      swap
      · rw [if_pos (by simpa using htac)] at hb
        exact Except.noConfusion hb
      rw [if_neg (not_not_intro htac)] at hb
      rcases hcb : processTicketPurchase s contractAddr idx e.ticketPrice now feeRes
        with err | p
      · rw [hcb] at hb
        exact Except.noConfusion hb
      rcases p with ⟨sCb, xsCb⟩
      obtain ⟨hcbFlag, hcbAtt, hcbFlags, hcbLock, hcbPaused, hcbBase, e', hev', hamt',
        _, _, _, _, hcbEvents⟩ :=
        processTicketPurchase_ok_spec s contractAddr idx e.ticketPrice now feeRes sCb
          xsCb hcb
      have hee : e' = e := by
        rw [hev] at hev'
        exact (Option.some.inj hev').symm
      rw [hee] at hcbEvents
      have hcbGet : sCb.events[idx]? = some
          { e with fundsHeld := e.fundsHeld + (e.ticketPrice - e.ticketPrice * 100 / 10000) } := by
        rw [hcbEvents]
        exact List.getElem?_set_eq_of_lt _ hlen
      rw [hcb] at hb
      dsimp only at hb
      rw [hcbGet] at hb
      dsimp only at hb
      injection hb with hb
      injection hb with hb1 hb2
      subst hb1
      refine ⟨hlf, hpf, by rw [hcbLock]; exact hlf, by rw [hcbPaused]; exact hpf,
        e, rfl, hff, hsd, hact, ?_, ?_, ?_, ?_⟩
      · rw [if_neg htok0, hcbBase]
      · rw [if_neg htok0, if_pos htokG]
        rw [hcbEvents]
        rw [List.getElem?_set_eq_of_lt _ (by simpa using hlen)]
      · intro hco
        exact absurd htokG hco
      · intro _
        refine ⟨hcbFlag, ?_, ?_⟩
        · rw [hcbAtt, updAttendees_updAttendees, updAttendees_self]
        · rw [hcbFlags]
    · by_cases hal : allowance ≥ e.ticketPrice
      swap
      · simp [buyTicket, List.get?_eq_getElem?, h1, hev, h2, h3, hsd, hact, hfl, hcap,
          htok0, htokG, hal] at hb
      by_cases htf : tfOk = true
      swap
      · simp [buyTicket, List.get?_eq_getElem?, h1, hev, h2, h3, hsd, hact, hfl, hcap,
          htok0, htokG, hal, htf] at hb
      · simp [buyTicket, List.get?_eq_getElem?, h1, hev, h2, h3, hsd, hact, hfl, hcap,
          htok0, htokG, hal, htf] at hb
        obtain ⟨hh1, hh2⟩ := hb
        subst hh1
        refine ⟨hlf, hpf, ?v1, ?v2, e, ?v3, ?v4, ?v5, ?v6, ?v7, ?v8, ?v9, ?v10⟩
        case v1 => rfl
        case v2 => rfl
        case v3 => rfl
        case v4 => exact hff
        case v5 => exact hsd
        case v6 => exact hact
        case v7 => simp [htok0]
        case v8 => simp [htok0, htokG, hact, List.getElem?_set_eq_of_lt _ hlen]
        case v9 => exact fun _ => ⟨rfl, rfl⟩
        case v10 => exact fun hg => absurd hg htokG
theorem attendInv_unchanged (s s' : EcState)
    (ha : s'.eventAttendees = s.eventAttendees)
    (hf : s'.hasPurchasedTicket = s.hasPurchasedTicket)
    (hinv : AttendInv s) : AttendInv s' := by
  intro ev
  rw [ha, hf]
  exact hinv ev

theorem attendInv_push (s s' : EcState) (i : Nat) (b : Address)
    (ha : s'.eventAttendees = updAttendees s.eventAttendees i (s.eventAttendees i ++ [b]))
    (hf : s'.hasPurchasedTicket = updFlag s.hasPurchasedTicket i b true)
    (hb : s.hasPurchasedTicket i b = false)
    (hinv : AttendInv s) : AttendInv s' := by
  intro ev
  rcases hinv ev with ⟨hnd, hmem⟩
  rw [ha, hf]
  by_cases hev : ev = i
  · subst hev
    constructor
    · simp only [updAttendees, if_pos rfl]
      refine List.nodup_append.mpr ⟨hnd, List.nodup_singleton _, ?_⟩
      intro x hx hxb
      rw [List.mem_singleton] at hxb
      subst hxb
      exact absurd ((hmem x).mp hx) (by simp [hb])
    · intro a
      simp only [updAttendees, updFlag, if_pos rfl, List.mem_append, List.mem_singleton]
      by_cases hab : a = b
      · subst hab
        simp
      · have hm := hmem a
        simp [hab, hm]
  · constructor
    · simp only [updAttendees, if_neg hev]
      exact hnd
    · intro a
      simp only [updAttendees, updFlag, if_neg hev]
      rw [if_neg (by rintro ⟨h, _⟩; exact hev h)]
      exact hmem a

theorem attendInv_push2 (s s' : EcState) (i : Nat) (b1 b2 : Address)
    (ha : s'.eventAttendees = updAttendees s.eventAttendees i
      (s.eventAttendees i ++ [b1] ++ [b2]))
    (hf : s'.hasPurchasedTicket = updFlag (updFlag s.hasPurchasedTicket i b1 true) i b2 true)
    (hb1 : s.hasPurchasedTicket i b1 = false)
    (hb2 : s.hasPurchasedTicket i b2 = false)
    (hne : ¬ b2 = b1)
    (hinv : AttendInv s) : AttendInv s' := by
  have h1 : AttendInv { s with
      eventAttendees := updAttendees s.eventAttendees i (s.eventAttendees i ++ [b1])
      hasPurchasedTicket := updFlag s.hasPurchasedTicket i b1 true } :=
    attendInv_push s _ i b1 rfl rfl hb1 hinv
  refine attendInv_push { s with
      eventAttendees := updAttendees s.eventAttendees i (s.eventAttendees i ++ [b1])
      hasPurchasedTicket := updFlag s.hasPurchasedTicket i b1 true } s' i b2 ?_ ?_ ?_ h1
  · rw [ha]
    show updAttendees s.eventAttendees i (s.eventAttendees i ++ [b1] ++ [b2]) =
      updAttendees (updAttendees s.eventAttendees i (s.eventAttendees i ++ [b1])) i
        ((updAttendees s.eventAttendees i (s.eventAttendees i ++ [b1])) i ++ [b2])
    rw [updAttendees_updAttendees, updAttendees_self]
  · rw [hf]
  · show updFlag s.hasPurchasedTicket i b1 true i b2 = false
    simp [updFlag, hne, hb2]

theorem attendInv_remove (s s' : EcState) (i : Nat) (c : Address)
    (ha : s'.eventAttendees = updAttendees s.eventAttendees i
      (swapRemoveFirst c (s.eventAttendees i)))
    (hf : s'.hasPurchasedTicket = updFlag s.hasPurchasedTicket i c false)
    (hinv : AttendInv s) : AttendInv s' := by
  intro ev
  rcases hinv ev with ⟨hnd, hmem⟩
  rw [ha, hf]
  by_cases hev : ev = i
  · subst hev
    constructor
    · rw [updAttendees_self]
      exact nodup_swapRemoveFirst c _ hnd
    · intro a
      rw [updAttendees_self]
      rw [mem_swapRemoveFirst c a _ hnd]
      by_cases hac : a = c
      · subst hac
        simp [updFlag]
      · have hm := hmem a
        simp [updFlag, hac, hm]
  · constructor
    · simp only [updAttendees, if_neg hev]
      exact hnd
    · intro a
      simp only [updAttendees, updFlag, if_neg hev]
      rw [if_neg (by rintro ⟨h, _⟩; exact hev h)]
      exact hmem a

theorem onTokenTransfer_ok_spec (s : EcState) (msgSender from_ : Address)
    (value eventId now : Nat) (feeRes : ExtRes) (s' : EcState) (xs : List Xfer)
    (h : onTokenTransfer s msgSender from_ value eventId now feeRes = .ok (s', xs)) :
    s.hasPurchasedTicket eventId from_ = false ∧
    s'.eventAttendees = updAttendees s.eventAttendees eventId
      (s.eventAttendees eventId ++ [from_]) ∧
    s'.hasPurchasedTicket = updFlag s.hasPurchasedTicket eventId from_ true := by
  unfold onTokenTransfer at h
  by_cases hms : msgSender = gdollarToken
  · rw [if_neg (not_not_intro hms)] at h
    have hspec := processTicketPurchase_ok_spec s from_ eventId value now feeRes s' xs h
    exact ⟨hspec.1, hspec.2.1, hspec.2.2.1⟩
  · rw [if_pos hms] at h
    exact Except.noConfusion h

theorem runOp_preserves_attendInv (s : EcState) (o : Op) (hok : opSenderOk o)
    (hinv : AttendInv s) : AttendInv (step s o) := by
  cases o with
  | opCreate caller now sp =>
    simp only [step, runOp]
    rcases h : createEvent s caller now sp with err | p
    · exact hinv
    · rcases p with ⟨s', xs⟩
      obtain ⟨ha, hf⟩ := createEvent_ok_maps s caller now sp s' xs h
      exact attendInv_unchanged s s' ha hf hinv
  | opBuy caller now msgValue idx allowance tfOk tacOk feeRes =>
    simp only [step, runOp]
    rcases h : buyTicket s caller now msgValue idx allowance tfOk tacOk feeRes
      with err | p
    · exact hinv
    · rcases p with ⟨s1, xs1⟩
      obtain ⟨_, _, _, _, e, hev, hff, _, _, _, _, hNonG, hG⟩ :=
        buyTicket_ok_spec s caller now msgValue idx allowance tfOk tacOk feeRes s1 xs1 h
      by_cases hg : e.paymentToken = gdollarToken
      · obtain ⟨hfc, ha, hf⟩ := hG hg
        have hne : ¬ caller = contractAddr := by simpa [opSenderOk] using hok
        exact attendInv_push2 s s1 idx contractAddr caller ha hf hfc hff hne hinv
      · obtain ⟨ha, hf⟩ := hNonG hg
        exact attendInv_push s s1 idx caller ha hf hff hinv
  | opTokenCb msgSender from_ value idx now feeRes =>
    simp only [step, runOp]
    rcases h : onTokenTransfer s msgSender from_ value idx now feeRes
      with err | p
    · exact hinv
    · rcases p with ⟨s', xs⟩
      obtain ⟨hff, ha, hf⟩ :=
        onTokenTransfer_ok_spec s msgSender from_ value idx now feeRes s' xs h
      exact attendInv_push s s' idx from_ ha hf hff hinv
  | opCancel caller idx =>
    simp only [step, runOp]
    rcases h : cancelEvent s caller idx with err | p
    · exact hinv
    · rcases p with ⟨s', xs⟩
      obtain ⟨ha, hf⟩ := cancelEvent_ok_maps s caller idx s' xs h
      exact attendInv_unchanged s s' ha hf hinv
  | opRefund caller now idx tOk =>
    simp only [step, runOp]
    rcases h : requestRefund s caller now idx tOk with err | p
    · exact hinv
    · rcases p with ⟨s2, xs2⟩
      obtain ⟨m, hm, hs2, hxs⟩ := requestRefund_ok_spec s caller now idx tOk s2 xs2 h
      obtain ⟨e, hev, _, _, hmflag, hmatt, _, _, _⟩ :=
        requestRefundChecks_ok_spec s caller now idx m hm
      subst hs2
      refine attendInv_remove s _ idx caller ?_ ?_ hinv
      · show updAttendees m.midState.eventAttendees idx
          (swapRemoveFirst caller (m.midState.eventAttendees idx)) = _
        rw [hmatt]
      · show m.midState.hasPurchasedTicket = _
        rw [hmflag]
  | opRelease caller now idx tOk =>
    simp only [step, runOp]
    rcases h : releaseFunds s caller now idx tOk with err | p
    · exact hinv
    · rcases p with ⟨s', xs⟩
      obtain ⟨ha, hf⟩ := releaseFunds_ok_maps s caller now idx tOk s' xs h
      exact attendInv_unchanged s s' ha hf hinv

/-! ### C1 -/

/-- C1: the claim says a single successful `buyTicket` on the
fee-bearing (G$) event with `ticketPrice = 1_000_000` leaves
`fundsHeld` at exactly 990,000 and sends 10,000 to the fee pool.  The
code disagrees: `buyTicket` calls `transferAndCall(address(this),
price)`, whose ERC677 callback `onTokenTransfer` runs
`_processTicketPurchase` (crediting the 990,000 net and paying the
10,000 fee) and then line 393 credits the 990,000 net a second time,
so `fundsHeld` ends at 1,980,000 — double what the contract actually
holds.  The fee pool does receive exactly 10,000.  The callback-only
route (a user calling `transferAndCall` on the token directly, the
path the frontend uses) produces the intended 990,000. -/
theorem C1_gdollar_buy_double_credit :
    resOk buyGdRes = true ∧
    fundsAt sBought 0 = 1980000 ∧
    totalTo (xfersOf buyGdRes) ubiPoolAddr = 10000 ∧
    sBought.eventAttendees 0 = [contractAddr, 6] ∧
    resOk directGdRes = true ∧
    fundsAt (stateOf directGdRes) 0 = 990000 ∧
    totalTo (xfersOf directGdRes) ubiPoolAddr = 10000 := by
  refine ⟨rfl, rfl, rfl, rfl, rfl, rfl, rfl⟩

/-! ### C5 -/

/-- C5: the claim says every failed transfer sub-step of a token-rail
purchase — in particular a failed fee transfer to the fee pool —
aborts the whole purchase with no state change, and that a token-rail
purchase succeeds only if the caller pre-authorized at least
`ticketPrice` and the caller's funds were transferred in.  The code
disagrees on the fee-bearing rail: the fee transfer's boolean result
(line 258) is ignored, so a fee transfer that returns `false` leaves
the purchase fully committed with the fee silently skipped; moreover
the `buyTicket` G$ branch never consults the caller's allowance and
never moves the caller's funds at all (its `transferAndCall` is a
self-transfer by the contract).  Evaluated at the failing input:
purchase succeeds, the ticket flag is set and escrow credited, the fee
pool receives nothing, and no transfer draws on the caller. -/
theorem C5_failed_fee_transfer_swallowed :
    resOk (buyTicket sCreated 6 10 0 0 0 true true .returnedFalse) = true ∧
    (stateOf (buyTicket sCreated 6 10 0 0 0 true true .returnedFalse)).hasPurchasedTicket 0 6
      = true ∧
    fundsAt (stateOf (buyTicket sCreated 6 10 0 0 0 true true .returnedFalse)) 0 = 1980000 ∧
    totalTo (xfersOf (buyTicket sCreated 6 10 0 0 0 true true .returnedFalse)) ubiPoolAddr
      = 0 ∧
    ((xfersOf (buyTicket sCreated 6 10 0 0 0 true true .returnedFalse)).all
      (fun x => ¬ x.src = 6)) = true ∧
    resOk (onTokenTransfer sCreated gdollarToken 6 1000000 0 10 .returnedFalse) = true ∧
    totalTo (xfersOf (onTokenTransfer sCreated gdollarToken 6 1000000 0 10 .returnedFalse))
      ubiPoolAddr = 0 := by
  refine ⟨rfl, rfl, rfl, rfl, by decide, rfl, rfl⟩

/-! ### C8 -/

/-- C8 counterexample: the claim says `createEvent` fails whenever
`startDate` is not strictly greater than the current time, in
particular when `startDate` equals the current time.  Line 319 of the
source checks `_startDate >= block.timestamp`, so a spec whose start
date equals the current time (here both 100000) is accepted. -/
theorem C8_counterexample_equal_start_accepted :
    demoSpec.startDate = 100000 ∧
    resOk (createEvent (initState demoToks) 5 100000 demoSpec) = true := by
  refine ⟨rfl, rfl⟩

/-- C8 (amended): with the earlier validations passing, `createEvent`
fails with the timing validation error exactly when `startDate` is
strictly less than the current time, and accepts `startDate` equal to
(or later than) the current time when the remaining validations also
pass. -/
theorem C8_amended_start_date_check (s : EcState) (caller : Address) (now : Nat)
    (sp : EventSpec)
    (hp : s.paused = false)
    (hn : 0 < strBytes sp.eventName ∧ strBytes sp.eventName ≤ MAX_NAME_LENGTH)
    (hu : 0 < strBytes sp.eventCardImgUrl ∧ strBytes sp.eventCardImgUrl ≤ MAX_URL_LENGTH)
    (hd : 0 < strBytes sp.eventDetails ∧ strBytes sp.eventDetails ≤ MAX_DETAILS_LENGTH)
    (hl : 0 < strBytes sp.eventLocation ∧ strBytes sp.eventLocation ≤ MAX_LOCATION_LENGTH)
    (hpr : 0 < sp.ticketPrice ∧ sp.ticketPrice ≤ MAX_TICKET_PRICE) :
    (sp.startDate < now → createEvent s caller now sp = .error .startDateNotFuture) ∧
    (now ≤ sp.startDate → sp.startDate + MIN_EVENT_DURATION ≤ sp.endDate →
      s.supportedTokens.contains sp.paymentToken = true →
      resOk (createEvent s caller now sp) = true) := by
  constructor
  · intro hlt
    simp [createEvent, hp, hn.1, hn.2, hu.1, hu.2, hd.1, hd.2, hl.1, hl.2, hpr.1, hpr.2,
      Nat.not_le.mpr hlt]
  · intro hge hdur htok
    have hmem : sp.paymentToken ∈ s.supportedTokens := by simpa using htok
    simp [createEvent, hp, hn.1, hn.2, hu.1, hu.2, hd.1, hd.2, hl.1, hl.2, hpr.1, hpr.2,
      hge, hdur, hmem, resOk]

/-- C8 witness: the amended theorem applied at the concrete input of
the counterexample (start date equal to the current time, every other
validation passing): creation succeeds. -/
theorem C8_amended_witness :
    (initState demoToks).paused = false ∧
    resOk (createEvent (initState demoToks) 5 100000 demoSpec) = true := by
  refine ⟨rfl, (C8_amended_start_date_check (initState demoToks) 5 100000 demoSpec
    rfl (by decide) (by decide) (by decide) (by decide) (by decide)).2
    (by decide) (by decide) (by decide)⟩

/-! ### C10 -/

/-- C10: for an event id at or past the number of created events,
`cancelEvent` and `releaseFunds` abort with no state change, but via
the array-out-of-bounds panic raised by the `onlyOwner` modifier
(which indexes `events[_index]` before any bounds check) rather than
the dedicated invalid-event error that the `validEvent`-guarded
operations (such as `requestRefund`) raise for the same id. -/
theorem C10_oob_id_panics (s : EcState) (caller : Address) (idx now : Nat) (tOk : Bool)
    (h : s.events.length ≤ idx) :
    cancelEvent s caller idx = .error .panicArrayOOB ∧
    releaseFunds s caller now idx tOk = .error .panicArrayOOB ∧
    (s.locked = false → requestRefund s caller now idx tOk = .error .invalidEvent) ∧
    ¬ (Err.panicArrayOOB = Err.invalidEvent) := by
  have hnone : s.events.get? idx = none := List.get?_eq_none.mpr h
  have hnone2 : s.events[idx]? = none := by simpa [List.get?_eq_getElem?] using hnone
  refine ⟨by simp [cancelEvent, hnone, hnone2], by simp [releaseFunds, hnone, hnone2], ?_,
    by decide⟩
  intro hl
  simp [requestRefund, requestRefundChecks, hnone, hnone2, hl]

/-- C10 witness: the theorem applied to the concrete three-event state
with the out-of-range id 7. -/
theorem C10_oob_id_panics_witness :
    sCreated.events.length ≤ 7 ∧
    cancelEvent sCreated 5 7 = .error .panicArrayOOB ∧
    releaseFunds sCreated 5 200000 7 true = .error .panicArrayOOB := by
  have h := C10_oob_id_panics sCreated 5 7 200000 true (by decide)
  exact ⟨by decide, h.1, h.2.1⟩

/-! ### C6 -/

/-- C6: for a non-canceled event and a caller who holds a ticket with
sufficient escrow balance on the event's rail, `requestRefund` fails
with the refund-period-ended error at every time from
`startDate - REFUND_BUFFER + 1` on, and succeeds at exactly
`startDate - REFUND_BUFFER - 1`. -/
theorem C6_refund_window (s : EcState) (caller : Address) (idx : Nat) (e : Event)
    (he : s.events.get? idx = some e)
    (hl : s.locked = false) (hp : s.paused = false)
    (how : ¬ e.owner = zeroAddr)
    (ht : s.hasPurchasedTicket idx caller = true)
    (hc : e.isCanceled = false)
    (hsd : REFUND_BUFFER + 1 ≤ e.startDate)
    (hf : if e.paymentToken = zeroAddr then refundOf e ≤ s.baseFundsHeld idx
          else refundOf e ≤ e.fundsHeld) :
    (∀ t, e.startDate - REFUND_BUFFER + 1 ≤ t →
      requestRefund s caller t idx true = .error .refundPeriodEnded) ∧
    resOk (requestRefund s caller (e.startDate - REFUND_BUFFER - 1) idx true) = true := by
  have he2 : s.events[idx]? = some e := by simpa [List.get?_eq_getElem?] using he
  have hnotarith : ¬ e.startDate < REFUND_BUFFER := by omega
  have how0 : ¬ e.owner = 0 := by simpa [zeroAddr] using how
  constructor
  · intro t htle
    have hnotlt : ¬ t < e.startDate - REFUND_BUFFER := by omega
    by_cases htok : e.paymentToken = zeroAddr
    · rw [if_pos htok] at hf
      unfold refundOf at hf
      simp [htok, zeroAddr, gdollarToken] at hf
      simp [requestRefund, requestRefundChecks, he2, hl, hp, how, how0, ht, hc, htok, hnotlt,
        hnotarith, hf, zeroAddr, gdollarToken]
    · rw [if_neg htok] at hf
      unfold refundOf at hf
      simp [requestRefund, requestRefundChecks, he2, hl, hp, how, how0, ht, hc, htok, hnotlt,
        hnotarith, hf]
  · have hlt : e.startDate - REFUND_BUFFER - 1 < e.startDate - REFUND_BUFFER := by omega
    by_cases htok : e.paymentToken = zeroAddr
    · rw [if_pos htok] at hf
      unfold refundOf at hf
      simp [htok, zeroAddr, gdollarToken] at hf
      simp [requestRefund, requestRefundChecks, resOk, he2, hl, hp, how, how0, ht, hc, htok,
        hlt, hnotarith, hf, zeroAddr, gdollarToken]
    · rw [if_neg htok] at hf
      unfold refundOf at hf
      simp [requestRefund, requestRefundChecks, resOk, he2, hl, hp, how, how0, ht, hc, htok,
        hlt, hnotarith, hf]

/-- C6 witness: the window theorem at the concrete purchased state
(start date 100000, so the cutoff is 82000): the refund reverts at
time 82001 and succeeds at time 81999. -/
theorem C6_refund_window_witness :
    sBought.hasPurchasedTicket 0 6 = true ∧
    requestRefund sBought 6 82001 0 true = .error .refundPeriodEnded ∧
    resOk (requestRefund sBought 6 81999 0 true) = true := by
  have h := C6_refund_window sBought 6 0 eBoughtG rfl rfl rfl (by decide) rfl rfl
    (by decide) (by decide)
  refine ⟨rfl, h.1 82001 (by decide), h.2⟩

/-! ### C7 -/

/-- C7: a successful `releaseFunds` transfers exactly the event's
current escrow balance for its rail to the creator and zeroes that
bucket; an immediate second call fails with the already-released
error; a call at or before `endDate` fails with the not-ended error;
a call on a canceled event (after `endDate`, where the cancel check is
reached) fails with the canceled-no-release error.  Failures return
`Except.error`, which in this model means the storage is unchanged
(a Solidity revert). -/
theorem C7_release_funds (s : EcState) (caller : Address) (idx now : Nat) (e : Event)
    (he : s.events.get? idx = some e)
    (how : e.owner = caller)
    (hl : s.locked = false) :
    (now ≤ e.endDate → ∀ tOk, releaseFunds s caller now idx tOk = .error .eventNotEnded) ∧
    (e.endDate < now → e.isCanceled = true →
      ∀ tOk, releaseFunds s caller now idx tOk = .error .canceledNoRelease) ∧
    (e.endDate < now → e.isCanceled = false → e.fundsReleased = false →
      resOk (releaseFunds s caller now idx true) = true ∧
      xfersOf (releaseFunds s caller now idx true) =
        [{ token := e.paymentToken, src := contractAddr, dst := caller,
           amount := if e.paymentToken = zeroAddr then s.baseFundsHeld idx else e.fundsHeld }] ∧
      (e.paymentToken = zeroAddr →
        (stateOf (releaseFunds s caller now idx true)).baseFundsHeld idx = 0) ∧
      (¬ e.paymentToken = zeroAddr →
        fundsAt (stateOf (releaseFunds s caller now idx true)) idx = 0) ∧
      (∀ tOk2, releaseFunds (stateOf (releaseFunds s caller now idx true)) caller now idx tOk2
        = .error .alreadyReleased)) := by
  have he2 : s.events[idx]? = some e := by simpa [List.get?_eq_getElem?] using he
  have hlen : idx < s.events.length := by
    rcases List.getElem?_eq_some.mp he2 with ⟨h, _⟩
    exact h
  refine ⟨?_, ?_, ?_⟩
  · intro hnow tOk
    have : ¬ now > e.endDate := by omega
    simp [releaseFunds, he2, how, hl, this]
  · intro hnow hcanc tOk
    simp [releaseFunds, he2, how, hl, hnow, hcanc]
  · intro hnow hcanc hrel
    have hnow' : ¬ now ≤ e.endDate := by omega
    by_cases htok : e.paymentToken = zeroAddr
    · simp [releaseFunds, resOk, xfersOf, stateOf, fundsAt, updNat, he2, how, hl, hnow',
        hcanc, hrel, htok, List.get?_eq_getElem?, List.getElem?_set_eq_of_lt _ hlen]
    · simp [releaseFunds, resOk, xfersOf, stateOf, fundsAt, updNat, he2, how, hl, hnow',
        hcanc, hrel, htok, List.get?_eq_getElem?, List.getElem?_set_eq_of_lt _ hlen]

/-- C7 witness: releasing the G$ demo event (escrow 1,980,000 after
the double-credited purchase) at time 200000 pays the creator exactly
the escrow balance, zeroes it, and a second release reverts with the
already-released error. -/
theorem C7_release_funds_witness :
    eBoughtG.endDate < 200000 ∧
    resOk (releaseFunds sBought 5 200000 0 true) = true ∧
    xfersOf (releaseFunds sBought 5 200000 0 true) =
      [{ token := gdollarToken, src := contractAddr, dst := 5, amount := 1980000 }] ∧
    fundsAt (stateOf (releaseFunds sBought 5 200000 0 true)) 0 = 0 ∧
    releaseFunds (stateOf (releaseFunds sBought 5 200000 0 true)) 5 200000 0 true
      = .error .alreadyReleased := by
  have h := (C7_release_funds sBought 5 0 200000 eBoughtG rfl rfl rfl).2.2
    (by decide) rfl rfl
  exact ⟨by decide, h.1, h.2.1, h.2.2.2.1 (by decide), h.2.2.2.2 true⟩

/-! ### C4 -/

/-- C4 (amended): in every successful `requestRefund`, the purchase
flag is cleared and the escrow bucket debited BEFORE the outbound
transfer, and the reentrancy guard is held across the transfer, so a
transfer callback re-invoking `requestRefund` is rejected (by the
guard; and since the flag is already cleared, even without the guard
the ticket check would fail).  The attendee removal, however, happens
only AFTER the transfer: at transfer time the attendee list is still
the pre-call list.  `m` is the storage at the moment of the outbound
transfer, as produced by `requestRefundChecks`. -/
theorem C4_refund_state_before_transfer (s : EcState) (caller : Address) (now idx : Nat)
    (m : RefundMid) (hm : requestRefundChecks s caller now idx = .ok m) :
    m.midState.hasPurchasedTicket idx caller = false ∧
    m.midState.eventAttendees = s.eventAttendees ∧
    m.midState.locked = true ∧
    (m.payTok = zeroAddr →
      m.midState.baseFundsHeld idx + m.refundAmount = s.baseFundsHeld idx) ∧
    (¬ m.payTok = zeroAddr →
      fundsAt m.midState idx + m.refundAmount = fundsAt s idx) ∧
    (∀ caller2 now2 idx2 tOk2,
      requestRefund m.midState caller2 now2 idx2 tOk2 = .error .reentrancy) := by
  by_cases h1 : s.locked
  · simp [requestRefundChecks, h1] at hm
  rcases hev : s.events[idx]? with _ | e
  · simp [requestRefundChecks, h1, hev, List.get?_eq_getElem?] at hm
  have hlen : idx < s.events.length := by
    rcases List.getElem?_eq_some.mp hev with ⟨h, _⟩
    exact h
  by_cases h2 : e.owner = zeroAddr
  · simp [requestRefundChecks, h1, hev, h2, List.get?_eq_getElem?] at hm
  have h2z : ¬ e.owner = 0 := by simpa [zeroAddr] using h2
  by_cases h3 : s.paused
  · simp [requestRefundChecks, h1, hev, h2, h3, List.get?_eq_getElem?] at hm
  by_cases h4 : s.hasPurchasedTicket idx caller = true
  swap
  · simp [requestRefundChecks, h1, hev, h2, h2z, h3, h4, List.get?_eq_getElem?] at hm
  by_cases htok : e.paymentToken = zeroAddr
  · by_cases h8 : e.ticketPrice ≤ s.baseFundsHeld idx
    swap
    · have h8n : s.baseFundsHeld idx < e.ticketPrice := by omega
      simp [requestRefundChecks, h1, hev, h2, h2z, h3, h4, htok, h8n, zeroAddr, gdollarToken,
        List.get?_eq_getElem?] at hm
    have h8n : ¬ s.baseFundsHeld idx < e.ticketPrice := Nat.not_lt.mpr h8
    by_cases hc : e.isCanceled = true
    · simp [requestRefundChecks, h1, hev, h2, h2z, h3, h4, htok, h8n, hc, zeroAddr, gdollarToken,
        List.get?_eq_getElem?] at hm
      subst hm
      refine ⟨by simp [updFlag], rfl, rfl, fun _ => ?_,
        fun hco => by simp [zeroAddr] at hco, fun c2 n2 i2 t2 => by
          simp [requestRefund, requestRefundChecks]⟩
      simp only [updNat, if_pos rfl]
      exact Nat.sub_add_cancel h8
    · have hc' : e.isCanceled = false := by simpa using hc
      by_cases harith : e.startDate < REFUND_BUFFER
      · simp [requestRefundChecks, h1, hev, h2, h2z, h3, h4, htok, h8n, hc', harith,
          zeroAddr, gdollarToken, List.get?_eq_getElem?] at hm
      by_cases hwin : now < e.startDate - REFUND_BUFFER
      · have hCw : ¬ e.startDate ≤ now + REFUND_BUFFER := by omega
        simp [requestRefundChecks, h1, hev, h2, h2z, h3, h4, htok, h8n, hc', harith, hwin, hCw,
          zeroAddr, gdollarToken, List.get?_eq_getElem?] at hm
        subst hm
        refine ⟨by simp [updFlag], rfl, rfl, fun _ => ?_,
          fun hco => by simp [zeroAddr] at hco, fun c2 n2 i2 t2 => by
            simp [requestRefund, requestRefundChecks]⟩
        simp only [updNat, if_pos rfl]
        exact Nat.sub_add_cancel h8
      · have hD : e.startDate ≤ now + REFUND_BUFFER := by omega
        simp [requestRefundChecks, h1, hev, h2, h2z, h3, h4, htok, h8n, hc', harith, hD,
          zeroAddr, gdollarToken, List.get?_eq_getElem?] at hm
  · by_cases h8 : (if e.paymentToken = gdollarToken then e.ticketPrice * 99 / 100
        else e.ticketPrice) ≤ e.fundsHeld
    swap
    · have h8n : e.fundsHeld < (if e.paymentToken = gdollarToken then
          e.ticketPrice * 99 / 100 else e.ticketPrice) := Nat.lt_of_not_le h8
      simp [requestRefundChecks, h1, hev, h2, h2z, h3, h4, htok, h8n,
        List.get?_eq_getElem?] at hm
    have h8n : ¬ e.fundsHeld < (if e.paymentToken = gdollarToken then
        e.ticketPrice * 99 / 100 else e.ticketPrice) := Nat.not_lt.mpr h8
    by_cases hc : e.isCanceled = true
    · simp [requestRefundChecks, h1, hev, h2, h2z, h3, h4, htok, h8n, hc,
        List.get?_eq_getElem?] at hm
      subst hm
      refine ⟨by simp [updFlag], rfl, rfl, fun hco => absurd hco htok, fun _ => ?_,
        fun c2 n2 i2 t2 => by simp [requestRefund, requestRefundChecks]⟩
      simp [fundsAt, List.get?_eq_getElem?, List.getElem?_set_eq_of_lt _ hlen, hev]
      exact Nat.sub_add_cancel h8
    · have hc' : e.isCanceled = false := by simpa using hc
      by_cases harith : e.startDate < REFUND_BUFFER
      · simp [requestRefundChecks, h1, hev, h2, h2z, h3, h4, htok, h8n, hc', harith,
          List.get?_eq_getElem?] at hm
      by_cases hwin : now < e.startDate - REFUND_BUFFER
      · have hCw : ¬ e.startDate ≤ now + REFUND_BUFFER := by omega
        simp [requestRefundChecks, h1, hev, h2, h2z, h3, h4, htok, h8n, hc', harith, hwin, hCw,
          List.get?_eq_getElem?] at hm
        subst hm
        refine ⟨by simp [updFlag], rfl, rfl, fun hco => absurd hco htok, fun _ => ?_,
          fun c2 n2 i2 t2 => by simp [requestRefund, requestRefundChecks]⟩
        simp [fundsAt, List.get?_eq_getElem?, List.getElem?_set_eq_of_lt _ hlen, hev]
        exact Nat.sub_add_cancel h8
      · have hD : e.startDate ≤ now + REFUND_BUFFER := by omega
        simp [requestRefundChecks, h1, hev, h2, h2z, h3, h4, htok, h8n, hc', harith, hD,
          List.get?_eq_getElem?] at hm

/-- C4 counterexample: the claim says ALL internal state mutation,
including the attendee removal, happens before the outbound transfer,
and that a reentrant `requestRefund` fails with the no-ticket error.
At the concrete refund the transfer-moment storage still lists the
caller as an attendee (removal only happens after the transfer, lines
542-549 vs 534/538), and the reentrant call is rejected by the
reentrancy guard, not by the ticket check. -/
theorem C4_counterexample_attendee_removed_after_transfer :
    requestRefundChecks sBought 6 50000 0 = .ok mDemo ∧
    6 ∈ mDemo.midState.eventAttendees 0 ∧
    requestRefund mDemo.midState 6 50000 0 true = .error .reentrancy ∧
    ¬ (Err.reentrancy = Err.noTicketPurchased) ∧
    (stateOf (requestRefund sBought 6 50000 0 true)).eventAttendees 0 = [contractAddr] := by
  refine ⟨rfl, by decide, rfl, by decide, rfl⟩

/-- C4 witness: the amended theorem applied at the concrete refund:
flag cleared, escrow debited, guard held, attendee list untouched at
transfer time. -/
theorem C4_refund_state_before_transfer_witness :
    requestRefundChecks sBought 6 50000 0 = .ok mDemo ∧
    mDemo.midState.hasPurchasedTicket 0 6 = false ∧
    mDemo.midState.eventAttendees = sBought.eventAttendees ∧
    mDemo.midState.locked = true ∧
    fundsAt mDemo.midState 0 + mDemo.refundAmount = fundsAt sBought 0 := by
  have h := C4_refund_state_before_transfer sBought 6 50000 0 mDemo rfl
  exact ⟨rfl, h.1, h.2.1, h.2.2.1, h.2.2.2.2.1 (by decide)⟩

/-! ### C9 -/

/-- C9: for every event whose payment token is not the native
sentinel, the legacy `requestRefund1` (via `_processRefund`) and the
current `requestRefund` are extensionally equal: same revert reason on
failure, and on success the same refund transfer and the identical
resulting storage (the only differences in the source are the position
of the attendee removal relative to the transfer, which does not
change the committed state, and `_safeTransfer` versus SafeERC20). -/
theorem C9_legacy_refund_equiv (s : EcState) (caller : Address) (now idx : Nat) (tOk : Bool)
    (e : Event) (he : s.events.get? idx = some e) (htok : ¬ e.paymentToken = zeroAddr) :
    requestRefund1 s caller now idx tOk = requestRefund s caller now idx tOk := by
  have he2 : s.events[idx]? = some e := by simpa [List.get?_eq_getElem?] using he
  by_cases h1 : s.locked
  · simp [requestRefund1, requestRefund, requestRefundChecks, h1]
  by_cases h2 : e.owner = zeroAddr
  · simp [requestRefund1, requestRefund, requestRefundChecks, h1, he2, h2,
      List.get?_eq_getElem?]
  by_cases h3 : s.paused
  · simp [requestRefund1, requestRefund, requestRefundChecks, h1, he2, h2, h3,
      List.get?_eq_getElem?]
  by_cases h4 : s.hasPurchasedTicket idx caller = true
  swap
  · simp [requestRefund1, requestRefund, requestRefundChecks, h1, he2, h2, h3, h4,
      List.get?_eq_getElem?]
  by_cases h8 : (if e.paymentToken = gdollarToken then e.ticketPrice * 99 / 100
      else e.ticketPrice) ≤ e.fundsHeld
  swap
  · have h8n : e.fundsHeld < (if e.paymentToken = gdollarToken then
        e.ticketPrice * 99 / 100 else e.ticketPrice) := Nat.lt_of_not_le h8
    simp [requestRefund1, requestRefund, requestRefundChecks, h1, he2, h2, h3, h4, htok,
      h8n, List.get?_eq_getElem?]
  have h8n : ¬ e.fundsHeld < (if e.paymentToken = gdollarToken then
      e.ticketPrice * 99 / 100 else e.ticketPrice) := Nat.not_lt.mpr h8
  by_cases hc : e.isCanceled = true
  · by_cases ht : tOk = true
    · simp [requestRefund1, requestRefund, requestRefundChecks, h1, he2, h2, h3, h4, htok,
        h8n, hc, ht, List.get?_eq_getElem?]
    · simp [requestRefund1, requestRefund, requestRefundChecks, h1, he2, h2, h3, h4, htok,
        h8n, hc, ht, List.get?_eq_getElem?]
  · have hc' : e.isCanceled = false := by simpa using hc
    by_cases harith : e.startDate < REFUND_BUFFER
    · simp [requestRefund1, requestRefund, requestRefundChecks, h1, he2, h2, h3, h4, htok,
        h8n, hc', harith, List.get?_eq_getElem?]
    by_cases hwin : now < e.startDate - REFUND_BUFFER
    · have hCw : ¬ e.startDate ≤ now + REFUND_BUFFER := by omega
      by_cases ht : tOk = true
      · simp [requestRefund1, requestRefund, requestRefundChecks, h1, he2, h2, h3, h4, htok,
          h8n, hc', harith, hwin, hCw, ht, List.get?_eq_getElem?]
      · simp [requestRefund1, requestRefund, requestRefundChecks, h1, he2, h2, h3, h4, htok,
          h8n, hc', harith, hwin, hCw, ht, List.get?_eq_getElem?]
    · have hD : e.startDate ≤ now + REFUND_BUFFER := by omega
      simp [requestRefund1, requestRefund, requestRefundChecks, h1, he2, h2, h3, h4, htok,
        h8n, hc', harith, hD, List.get?_eq_getElem?]

/-- C9 witness: the equivalence at the concrete standard-token refund,
a branch in which both paths succeed. -/
theorem C9_legacy_refund_equiv_witness :
    (¬ eStdBought.paymentToken = zeroAddr) ∧
    requestRefund1 sStdBought 6 50000 1 true = requestRefund sStdBought 6 50000 1 true ∧
    resOk (requestRefund sStdBought 6 50000 1 true) = true := by
  refine ⟨by decide,
    C9_legacy_refund_equiv sStdBought 6 50000 1 true eStdBought rfl (by decide), rfl⟩

/-! ### C3 -/

/-- C3: in every state reachable from deployment by any sequence of
entry-point invocations (createEvent, buyTicket,
onTokenTransfer-initiated purchase, cancelEvent, requestRefund,
releaseFunds), an identity appears in an event's attendee list exactly
when its per-event purchase flag is set.  `Reachable` ranges over
arbitrary callers, timestamps and external-call outcomes, with the one
environment fact that an external `buyTicket` caller is not the
EventChain contract itself (the contract never calls its own external
functions). -/
theorem C3_attendee_list_iff_flag (toks : List Address) (s : EcState)
    (h : Reachable toks s) :
    ∀ ev a, a ∈ s.eventAttendees ev ↔ s.hasPurchasedTicket ev a = true := by
  have hinv : AttendInv s := by
    induction h with
    | init =>
      intro ev
      refine ⟨List.nodup_nil, fun a => ?_⟩
      simp [initState]
    | next o hok hs ih => exact runOp_preserves_attendInv _ o hok ih
  exact fun ev a => (hinv ev).2 a


/-- C3 witness: the invariant theorem applied to the concrete
reachable state after three creations and the G$ purchase, evaluated
at buyer 6 (a ticket holder) and at the stranger 7. -/
theorem C3_attendee_list_iff_flag_witness :
    Reachable demoToks sBought ∧
    (6 ∈ sBought.eventAttendees 0 ↔ sBought.hasPurchasedTicket 0 6 = true) ∧
    (7 ∈ sBought.eventAttendees 0 ↔ sBought.hasPurchasedTicket 0 7 = true) := by
  have hreach : Reachable demoToks sBought :=
    .next (.opBuy 6 10 0 0 0 true true .ok) (by simp [opSenderOk, contractAddr])
      (.next (.opCreate 5 1 demoSpecBase) trivial
        (.next (.opCreate 5 1 demoSpecStd) trivial
          (.next (.opCreate 5 1 demoSpec) trivial .init)))
  exact ⟨hreach, C3_attendee_list_iff_flag demoToks sBought hreach 0 6,
    C3_attendee_list_iff_flag demoToks sBought hreach 0 7⟩

/-! ### C2 -/

/-- C2 counterexample: the claim says that on the fee-bearing rail the
escrow balance changes by exactly minus two percent of `ticketPrice`
across a buy-then-refund round trip.  At the concrete G$ event
(`ticketPrice` 1,000,000) the pre-purchase escrow is 0 and the
post-refund escrow is 990,000 — a change of +990,000, not −20,000
(the double-credited purchase adds 2 × 990,000 and the refund removes
990,000). -/
theorem C2_counterexample_fee_rail_escrow_drift :
    fundsAt sCreated 0 = 0 ∧
    resOk buyGdRes = true ∧
    resOk refundGdRes = true ∧
    fundsAt sRefunded 0 = 990000 ∧
    ¬ (fundsAt sRefunded 0 + 20000 = fundsAt sCreated 0) := by
  refine ⟨rfl, rfl, rfl, rfl, by decide⟩

/-- C2 (amended): a successful `buyTicket` immediately followed by a
successful `requestRefund` by the same caller restores the purchase
flag to false; for the native rail it restores `baseFundsHeld`
exactly and for standard (non-fee) tokens it restores `fundsHeld`
exactly; for the fee-bearing (G$) token class the escrow ends at
pre + 2·(price − floor(price/100)) − floor(99·price/100) (i.e. it
GROWS by 99% of the price for prices divisible by 100, because
`buyTicket` double-credits the net amount), and the caller receives
back exactly floor(99·price/100). -/
theorem C2_buy_refund_round_trip
    (s : EcState) (caller : Address) (now1 now2 msgValue idx allowance : Nat)
    (tfOk tacOk : Bool) (feeRes : ExtRes) (tOk : Bool)
    (e : Event) (he : s.events.get? idx = some e)
    (s1 s2 : EcState) (xs1 xs2 : List Xfer)
    (hb : buyTicket s caller now1 msgValue idx allowance tfOk tacOk feeRes = .ok (s1, xs1))
    (hr : requestRefund s1 caller now2 idx tOk = .ok (s2, xs2)) :
    s2.hasPurchasedTicket idx caller = false ∧
    (e.paymentToken = zeroAddr → s2.baseFundsHeld idx = s.baseFundsHeld idx) ∧
    (¬ e.paymentToken = zeroAddr → ¬ e.paymentToken = gdollarToken →
      fundsAt s2 idx = fundsAt s idx) ∧
    (e.paymentToken = gdollarToken →
      fundsAt s2 idx = e.fundsHeld + 2 * (e.ticketPrice - e.ticketPrice / 100)
        - e.ticketPrice * 99 / 100 ∧
      xs2 = [{ token := gdollarToken, src := contractAddr, dst := caller,
               amount := e.ticketPrice * 99 / 100 }]) := by
  have he2 : s.events[idx]? = some e := by simpa [List.get?_eq_getElem?] using he
  obtain ⟨hlf, hpf, h1lf, h1pf, e0, hev0, hff, hsd, hact, hbase1, hget1, hNonG, hG⟩ :=
    buyTicket_ok_spec s caller now1 msgValue idx allowance tfOk tacOk feeRes s1 xs1 hb
  rw [he2] at hev0
  have he0 : e0 = e := (Option.some.inj hev0).symm
  subst e0
  obtain ⟨m, hm, hs2, hxs2⟩ := requestRefund_ok_spec s1 caller now2 idx tOk s2 xs2 hr
  obtain ⟨e1, hev1, hptok, hramt, hmflag, hmatt, hmlock, hE0, hE1⟩ :=
    requestRefundChecks_ok_spec s1 caller now2 idx m hm
  rw [hget1] at hev1
  have he1 : (if e.paymentToken = zeroAddr then e
      else if e.paymentToken = gdollarToken then
        { e with fundsHeld := e.fundsHeld + (e.ticketPrice - e.ticketPrice * 100 / 10000)
            + (e.ticketPrice - e.ticketPrice / 100) }
      else { e with fundsHeld := e.fundsHeld + e.ticketPrice }) = e1 :=
    Option.some.inj hev1
  have hlen1 : idx < s1.events.length := by
    rcases List.getElem?_eq_some.mp hget1 with ⟨h, _⟩
    exact h
  subst hs2
  have hflag2 : (updFlag s1.hasPurchasedTicket idx caller false) idx caller = false := by
    simp [updFlag]
  refine ⟨by rw [hmflag] at *; exact hflag2, ?_, ?_, ?_⟩
  · intro htok
    have he1' : e1 = e := by rw [← he1, if_pos htok]
    obtain ⟨hEv, hBase, hLe⟩ := hE0 (by rw [he1']; exact htok)
    have hrof : refundOf e1 = e.ticketPrice := by
      rw [he1']
      simp [refundOf, htok, zeroAddr, gdollarToken]
    show (m.midState.baseFundsHeld) idx = s.baseFundsHeld idx
    rw [hBase, hrof]
    rw [hbase1, if_pos htok]
    simp [updNat]
  · intro htok hgd
    have he1' : e1 = { e with fundsHeld := e.fundsHeld + e.ticketPrice } := by
      rw [← he1, if_neg htok, if_neg hgd]
    subst he1'
    obtain ⟨hBase, hEv, hLe⟩ := hE1 (by simpa using htok)
    have hrof : refundOf { e with fundsHeld := e.fundsHeld + e.ticketPrice }
        = e.ticketPrice := by
      simp [refundOf, hgd]
    show fundsAt { m.midState with
        eventAttendees := updAttendees m.midState.eventAttendees idx
          (swapRemoveFirst caller (m.midState.eventAttendees idx))
        locked := false } idx = fundsAt s idx
    rw [fundsAt, fundsAt]
    show ((m.midState.events.get? idx).map Event.fundsHeld).getD 0 = _
    rw [List.get?_eq_getElem?, hEv, hrof]
    rw [List.getElem?_set_eq_of_lt _ hlen1]
    rw [List.get?_eq_getElem?, he2]
    simp
  · intro hgd
    have htok : ¬ e.paymentToken = zeroAddr := by
      rw [hgd]
      simp [zeroAddr, gdollarToken]
    have he1' : e1 = { e with fundsHeld := e.fundsHeld
        + (e.ticketPrice - e.ticketPrice * 100 / 10000)
        + (e.ticketPrice - e.ticketPrice / 100) } := by
      rw [← he1, if_neg htok, if_pos hgd]
    subst he1'
    obtain ⟨hBase, hEv, hLe⟩ := hE1 (by simpa using htok)
    have hrof : refundOf { e with fundsHeld := e.fundsHeld
        + (e.ticketPrice - e.ticketPrice * 100 / 10000)
        + (e.ticketPrice - e.ticketPrice / 100) } = e.ticketPrice * 99 / 100 := by
      simp [refundOf, hgd]
    constructor
    · show fundsAt { m.midState with
          eventAttendees := updAttendees m.midState.eventAttendees idx
            (swapRemoveFirst caller (m.midState.eventAttendees idx))
          locked := false } idx = _
      rw [fundsAt]
      show ((m.midState.events.get? idx).map Event.fundsHeld).getD 0 = _
      rw [List.get?_eq_getElem?, hEv, hrof]
      rw [List.getElem?_set_eq_of_lt _ hlen1]
      have hdiv : e.ticketPrice * 100 / 10000 = e.ticketPrice / 100 := by omega
      simp only [hdiv, Option.map_some', Option.getD_some]
      omega
    · rw [hxs2, hptok, hramt, hrof, ← hgd]

/-- C2 witness: the round-trip theorem at the concrete G$ event. -/
theorem C2_buy_refund_round_trip_witness :
    buyTicket sCreated 6 10 0 0 0 true true .ok = .ok (sBought, xsBoughtG) ∧
    requestRefund sBought 6 50000 0 true = .ok (sRefunded, xsRefunded) ∧
    sRefunded.hasPurchasedTicket 0 6 = false ∧
    fundsAt sRefunded 0 = eCreatedG.fundsHeld
      + 2 * (eCreatedG.ticketPrice - eCreatedG.ticketPrice / 100)
      - eCreatedG.ticketPrice * 99 / 100 ∧
    xsRefunded = [{ token := gdollarToken, src := contractAddr, dst := 6,
                    amount := 990000 }] := by
  have h := C2_buy_refund_round_trip sCreated 6 10 50000 0 0 0 true true .ok true
    eCreatedG rfl sBought sRefunded xsBoughtG xsRefunded rfl rfl
  exact ⟨rfl, rfl, h.1, (h.2.2.2 (by decide)).1, (h.2.2.2 (by decide)).2⟩

end EventChain
